import Mathlib

/-!
# Handmade: collision primitives

A shallow embedding of the collision layer of the Handmade engine
(`Plane2D.cpp`, `AABB2D.h`), of the matrix stack and the projections of
`ScreenManager.cpp` and of `ShaderManager::Destroy`, together with the
properties its specification states about them.

Conventions of the embedding.

* A C++ `float` is a rational number (`ℚ`). The routines are first embedded
  with exact arithmetic, for the properties that are about their branch
  structure and algebra. `Plane2D::Update` and `Plane2D::SideOfPlane` are
  embedded a second time with every product, sum and difference rounded to
  binary32 (section "Rounded arithmetic"), for the properties that rounding
  decides. Infinities and NaN are not modelled.
* Member functions take the object as their first argument; a `void` member
  that mutates the object returns the new object.
* Members that play no part in collision (`m_color`) are left out.
-/

namespace Handmade

/-! ## Vectors -/

/-- The engine's `Vector2D<float>`. -/
structure Vector2D where
  X : ℚ
  Y : ℚ
deriving DecidableEq, Repr

/-- The engine's `Vector3D<float>`, the type of `Bound::m_position`. -/
structure Vector3D where
  X : ℚ
  Y : ℚ
  Z : ℚ
deriving DecidableEq, Repr

namespace Vector2D

/-- Modelled from the spec: the constant `Vector2D<float>::RIGHT`, one of the
named constants of the vector class, whose header is not among the sources. -/
def RIGHT : Vector2D := ⟨1, 0⟩

/-- Modelled from the spec: the constant `Vector2D<float>::UP`, one of the named
constants of the vector class, whose header is not among the sources. -/
def UP : Vector2D := ⟨0, 1⟩

/-- Modelled from the spec: the member `a.DotProduct(b)` of the vector class,
whose header is not among the sources. -/
def DotProduct (a b : Vector2D) : ℚ := a.X * b.X + a.Y * b.Y

/-- Modelled from the spec: the operator `a + b` of the vector class, whose
header is not among the sources. -/
def add (a b : Vector2D) : Vector2D := ⟨a.X + b.X, a.Y + b.Y⟩

/-- Modelled from the spec: the operator `a - b` of the vector class, whose
header is not among the sources. -/
def sub (a b : Vector2D) : Vector2D := ⟨a.X - b.X, a.Y - b.Y⟩

/-- Modelled from the spec: the operator `a * k` for a scalar `k` of the vector
class, whose header is not among the sources. -/
def mulScalar (a : Vector2D) (k : ℚ) : Vector2D := ⟨a.X * k, a.Y * k⟩

/-- Modelled from the spec: the component-wise operator `a * b` of the vector
class, whose header is not among the sources. -/
def mul (a b : Vector2D) : Vector2D := ⟨a.X * b.X, a.Y * b.Y⟩

/-- Modelled from the spec: the operator `a / k` for a scalar `k` of the vector
class, whose header is not among the sources. -/
def divScalar (a : Vector2D) (k : ℚ) : Vector2D := ⟨a.X / k, a.Y / k⟩

/-- Squared Euclidean distance between two points. -/
def distSq (a b : Vector2D) : ℚ := (a.X - b.X) * (a.X - b.X) + (a.Y - b.Y) * (a.Y - b.Y)

end Vector2D

/-- Modelled from the spec: the member `Vector3D::Convert2D()`, whose header is
not among the sources: drop the third component. -/
def Vector3D.Convert2D (v : Vector3D) : Vector2D := ⟨v.X, v.Y⟩

/-- The class `Transform`. Its header is not among the sources; `Plane2D` uses
nothing of it but the product `GetMatrix() * v` with a 2D vector, which is kept
as an arbitrary function here, so that every result holds for every matrix. -/
structure Transform where
  GetMatrixMul : Vector2D → Vector2D

/-! ## Sphere2D -/

/-- The class `Sphere2D` as the collision routines see it. -/
structure Sphere2D where
  m_position : Vector3D
  m_radius : ℚ
deriving DecidableEq, Repr

/-- The getter `Sphere2D::GetPosition()`. -/
def Sphere2D.GetPosition (s : Sphere2D) : Vector3D := s.m_position

/-- The getter `Sphere2D::GetRadius()`. -/
def Sphere2D.GetRadius (s : Sphere2D) : ℚ := s.m_radius

/-! ## Plane2D -/

/-- The enum `Plane2D::PlaneSide`. -/
inductive PlaneSide where
  | POSITIVE_SIDE
  | NEGATIVE_SIDE
  | ON_PLANE
deriving DecidableEq, Repr

/-- The class `Plane2D`. -/
structure Plane2D where
  m_position : Vector3D
  m_rotation : Transform
  m_sideOfPlane : ℚ
  m_distanceFromOrigin : ℚ
  m_point_1 : Vector2D
  m_point_2 : Vector2D
  m_normal : Vector2D

namespace Plane2D

/-- The setter `Plane2D::SetRotation`. -/
def SetRotation (p : Plane2D) (rotation : Transform) : Plane2D :=
  { p with m_rotation := rotation }

/-- The routine `Plane2D::IsColliding(const Sphere2D&)`. The call
`abs(distanceFromPlane)` has a `float` argument, for which C++ selects the
floating-point overload of `abs`. -/
def IsColliding (p : Plane2D) (secondSphere : Sphere2D) : Bool :=
  let distanceFromPlane : ℚ :=
    p.m_normal.DotProduct secondSphere.GetPosition.Convert2D - p.m_distanceFromOrigin
  decide (|distanceFromPlane| ≤ secondSphere.GetRadius)

/-- The routine `Plane2D::SideOfPlane`. -/
def SideOfPlane (p : Plane2D) (positionX positionY : ℚ) : PlaneSide :=
  let tempPosition : Vector2D := ⟨positionX, positionY⟩
  let distanceFromPlane : ℚ := p.m_normal.DotProduct tempPosition - p.m_distanceFromOrigin
  if distanceFromPlane > 0 then PlaneSide.POSITIVE_SIDE
  else if distanceFromPlane < 0 then PlaneSide.NEGATIVE_SIDE
  else PlaneSide.ON_PLANE

/-- The routine `Plane2D::Update`. -/
def Update (p : Plane2D) : Plane2D :=
  let position : Vector2D := p.m_position.Convert2D
  let rightAxis : Vector2D := Vector2D.RIGHT
  let rightAxis : Vector2D := p.m_rotation.GetMatrixMul rightAxis
  let m_point_1 := position.sub (rightAxis.mulScalar 10000)
  let m_point_2 := position.add (rightAxis.mulScalar 10000)
  let m_normal : Vector2D := ⟨-rightAxis.Y, rightAxis.X⟩
  let m_distanceFromOrigin := m_normal.DotProduct position
  { p with
    m_point_1 := m_point_1
    m_point_2 := m_point_2
    m_normal := m_normal
    m_distanceFromOrigin := m_distanceFromOrigin }

/-- The right axis after rotation, the local `rightAxis` of `Update`. -/
def rotatedRightAxis (p : Plane2D) : Vector2D :=
  p.m_rotation.GetMatrixMul Vector2D.RIGHT

/-- The signed distance `normal · (x, y) − distanceFromOrigin` that both
queries compute. -/
def signedDistance (p : Plane2D) (x y : ℚ) : ℚ :=
  p.m_normal.DotProduct ⟨x, y⟩ - p.m_distanceFromOrigin

end Plane2D

/-- Round a rational to the nearest integer, ties to the even one. -/
def roundHalfEven (t : ℚ) : ℤ :=
  let f : ℤ := ⌊t⌋
  if t - f < 1 / 2 then f
  else if 1 / 2 < t - f then f + 1
  else if f % 2 = 0 then f
  else f + 1

/-- Round a rational to the nearest binary32 value, ties to even: a significand
of 24 bits, the least exponent `-126` (below it the spacing stays `2 ^ (-149)`).
Overflow to an infinity is not modelled. -/
def roundBinary32 (x : ℚ) : ℚ :=
  if x = 0 then 0
  else
    let e : ℤ := max (Int.log 2 |x|) (-126)
    let q : ℚ := (2 : ℚ) ^ (e - 23)
    let m : ℤ := roundHalfEven (|x| / q)
    if x < 0 then -((m : ℚ) * q) else (m : ℚ) * q

/-- Every value of a list is the result of its own rounding: the operations
that produce these values do not round. -/
def ExactOn (fl : ℚ → ℚ) (values : List ℚ) : Prop := ∀ v ∈ values, fl v = v

namespace Vector2D

/-- The member `a.DotProduct(b)` in `float`: both products and their sum are
rounded. -/
def DotProductRounded (fl : ℚ → ℚ) (a b : Vector2D) : ℚ :=
  fl (fl (a.X * b.X) + fl (a.Y * b.Y))

/-- The operator `a + b` in `float`. -/
def addRounded (fl : ℚ → ℚ) (a b : Vector2D) : Vector2D := ⟨fl (a.X + b.X), fl (a.Y + b.Y)⟩

/-- The operator `a - b` in `float`. -/
def subRounded (fl : ℚ → ℚ) (a b : Vector2D) : Vector2D := ⟨fl (a.X - b.X), fl (a.Y - b.Y)⟩

/-- The operator `a * k` for a scalar `k` in `float`. -/
def mulScalarRounded (fl : ℚ → ℚ) (a : Vector2D) (k : ℚ) : Vector2D :=
  ⟨fl (a.X * k), fl (a.Y * k)⟩

end Vector2D

namespace Plane2D

/-- The routine `Plane2D::Update` in `float`: as `Update`, with the result of
every product, sum and difference rounded by `fl`. The negation in the normal
is exact. -/
def UpdateRounded (fl : ℚ → ℚ) (p : Plane2D) : Plane2D :=
  let position : Vector2D := p.m_position.Convert2D
  let rightAxis : Vector2D := Vector2D.RIGHT
  let rightAxis : Vector2D := p.m_rotation.GetMatrixMul rightAxis
  let m_point_1 := position.subRounded fl (rightAxis.mulScalarRounded fl 10000)
  let m_point_2 := position.addRounded fl (rightAxis.mulScalarRounded fl 10000)
  let m_normal : Vector2D := ⟨-rightAxis.Y, rightAxis.X⟩
  let m_distanceFromOrigin := m_normal.DotProductRounded fl position
  { p with
    m_point_1 := m_point_1
    m_point_2 := m_point_2
    m_normal := m_normal
    m_distanceFromOrigin := m_distanceFromOrigin }

/-- The local `distanceFromPlane` of `Plane2D::SideOfPlane` in `float`: the dot
product and the difference are rounded by `fl`. -/
def distanceFromPlaneRounded (fl : ℚ → ℚ) (p : Plane2D) (positionX positionY : ℚ) : ℚ :=
  fl (p.m_normal.DotProductRounded fl ⟨positionX, positionY⟩ - p.m_distanceFromOrigin)

/-- The routine `Plane2D::SideOfPlane` in `float`. -/
def SideOfPlaneRounded (fl : ℚ → ℚ) (p : Plane2D) (positionX positionY : ℚ) : PlaneSide :=
  let distanceFromPlane : ℚ := p.distanceFromPlaneRounded fl positionX positionY
  if distanceFromPlane > 0 then PlaneSide.POSITIVE_SIDE
  else if distanceFromPlane < 0 then PlaneSide.NEGATIVE_SIDE
  else PlaneSide.ON_PLANE

/-- The exact results of the operations by which `Update` computes the two
endpoints: the two products with `10000`, the two differences and the two sums. -/
def endpointOperands (p : Plane2D) : List ℚ :=
  [p.rotatedRightAxis.X * 10000, p.rotatedRightAxis.Y * 10000,
    p.m_position.X - p.rotatedRightAxis.X * 10000,
    p.m_position.Y - p.rotatedRightAxis.Y * 10000,
    p.m_position.X + p.rotatedRightAxis.X * 10000,
    p.m_position.Y + p.rotatedRightAxis.Y * 10000]

/-- The exact results of the operations by which `Update` computes
`m_distanceFromOrigin`: the two products and their sum. -/
def distanceOperands (p : Plane2D) : List ℚ :=
  [-p.rotatedRightAxis.Y * p.m_position.X, p.rotatedRightAxis.X * p.m_position.Y,
    -p.rotatedRightAxis.Y * p.m_position.X + p.rotatedRightAxis.X * p.m_position.Y]

/-- The exact results of the operations of `SideOfPlane(x, y)` on the stored
normal and distance: the two products, their sum and the difference. -/
def sideOperands (p : Plane2D) (x y : ℚ) : List ℚ :=
  [p.m_normal.X * x, p.m_normal.Y * y, p.m_normal.X * x + p.m_normal.Y * y,
    p.m_normal.X * x + p.m_normal.Y * y - p.m_distanceFromOrigin]

end Plane2D

/-! ## AABB2D

Only the header `AABB2D.h` is among the sources: it declares the members and
the routines, and its bodies are in a file that is not. The routines below are
therefore written from the specification. -/

/-- The class `AABB2D` (members as declared in `AABB2D.h`, with the
`m_position` it inherits from `Bound`). -/
structure AABB2D where
  m_position : Vector3D
  m_min : Vector2D
  m_max : Vector2D
  m_scale : Vector2D
  m_dimension : Vector2D
  m_halfDimension : Vector2D
deriving DecidableEq, Repr

/-- Modelled from the spec: the clamp of one coordinate to the interval
`[lo, hi]`, the helper of `PointOnBox`, whose body is not among the sources. -/
def clamp (v lo hi : ℚ) : ℚ :=
  if v < lo then lo else if hi < v then hi else v

namespace AABB2D

/-- The getter `AABB2D::GetScale()`. -/
def GetScale (b : AABB2D) : Vector2D := b.m_scale

/-- The getter `AABB2D::GetDimension()`. -/
def GetDimension (b : AABB2D) : Vector2D := b.m_dimension

/-- The setter `AABB2D::SetScale`. -/
def SetScale (b : AABB2D) (x y : ℚ) : AABB2D := { b with m_scale := ⟨x, y⟩ }

/-- The setter `AABB2D::SetDimension`. -/
def SetDimension (b : AABB2D) (width height : ℚ) : AABB2D :=
  { b with m_dimension := ⟨width, height⟩ }

/-- Modelled from the spec: the body of `AABB2D::Update()` is not among the
sources. `halfDimension = dimension * scale / 2`, `min = position − halfDimension`,
`max = position + halfDimension`. -/
def Update (b : AABB2D) : AABB2D :=
  let halfDimension : Vector2D := (b.m_dimension.mul b.m_scale).divScalar 2
  { b with
    m_halfDimension := halfDimension
    m_min := b.m_position.Convert2D.sub halfDimension
    m_max := b.m_position.Convert2D.add halfDimension }

/-- Modelled from the spec: the body of `AABB2D::IsColliding(const AABB2D&)` is
not among the sources. True iff `min.x ≤ other.max.x AND max.x ≥ other.min.x AND
min.y ≤ other.max.y AND max.y ≥ other.min.y`. -/
def IsColliding (b secondBox : AABB2D) : Bool :=
  decide (b.m_min.X ≤ secondBox.m_max.X) && decide (b.m_max.X ≥ secondBox.m_min.X) &&
  decide (b.m_min.Y ≤ secondBox.m_max.Y) && decide (b.m_max.Y ≥ secondBox.m_min.Y)

/-- Modelled from the spec: the body of `AABB2D::PointOnBox` is not among the
sources. Clamp `(x, y)` component-wise to `[min, max]`. -/
def PointOnBox (b : AABB2D) (positionX positionY : ℚ) : Vector2D :=
  ⟨clamp positionX b.m_min.X b.m_max.X, clamp positionY b.m_min.Y b.m_max.Y⟩

/-- Modelled from the spec: the body of `AABB2D::IsColliding(const Sphere2D&)`
is not among the sources. Compute `PointOnBox(s.position)`; the boxes collide
when the distance from that point to the sphere centre is at most `s.radius`.
The comparison `distance ≤ radius` of a square root with the radius is decided
on the squares: `0 ≤ radius` and `distance² ≤ radius²`. -/
def IsCollidingSphere (b : AABB2D) (secondSphere : Sphere2D) : Bool :=
  let centre : Vector2D := secondSphere.GetPosition.Convert2D
  let pointOnBox : Vector2D := b.PointOnBox centre.X centre.Y
  decide (0 ≤ secondSphere.GetRadius) &&
  decide (pointOnBox.distSq centre ≤ secondSphere.GetRadius * secondSphere.GetRadius)

/-- A point lies in the closed box `[min, max]`. -/
def Contains (b : AABB2D) (q : Vector2D) : Prop :=
  b.m_min.X ≤ q.X ∧ q.X ≤ b.m_max.X ∧ b.m_min.Y ≤ q.Y ∧ q.Y ≤ b.m_max.Y

/-- A point lies strictly inside the box. -/
def StrictlyInside (b : AABB2D) (q : Vector2D) : Prop :=
  b.m_min.X < q.X ∧ q.X < b.m_max.X ∧ b.m_min.Y < q.Y ∧ q.Y < b.m_max.Y

/-- A point lies on the boundary of the box: in the box and on one of the four
edge lines. -/
def OnBoundary (b : AABB2D) (q : Vector2D) : Prop :=
  b.Contains q ∧ (q.X = b.m_min.X ∨ q.X = b.m_max.X ∨ q.Y = b.m_min.Y ∨ q.Y = b.m_max.Y)

instance (b : AABB2D) (q : Vector2D) : Decidable (b.Contains q) := by
  unfold Contains; infer_instance

instance (b : AABB2D) (q : Vector2D) : Decidable (b.StrictlyInside q) := by
  unfold StrictlyInside; infer_instance

instance (b : AABB2D) (q : Vector2D) : Decidable (b.OnBoundary q) := by
  unfold OnBoundary; infer_instance

end AABB2D

/-! ## OBB2D

No file of the class `OBB2D` is among the sources; `AABB2D.h` only declares it
and the routine `AABB2D::IsColliding(const OBB2D&)` that delegates to it. -/

/-- Modelled from the spec: the class `OBB2D`, which is not among the sources.
The data of an `AABB2D` with a rotation on top, and the two local axes rotated
into world space. -/
structure OBB2D where
  m_position : Vector3D
  m_rotation : Transform
  m_scale : Vector2D
  m_dimension : Vector2D
  m_halfDimension : Vector2D
  m_rightAxis : Vector2D
  m_upAxis : Vector2D

namespace OBB2D

/-- Modelled from the spec: `OBB2D::Update()`, which is not among the sources.
The half dimension is derived as for an `AABB2D`, and the local axes are
rotated into world space. -/
def Update (b : OBB2D) : OBB2D :=
  { b with
    m_halfDimension := (b.m_dimension.mul b.m_scale).divScalar 2
    m_rightAxis := b.m_rotation.GetMatrixMul Vector2D.RIGHT
    m_upAxis := b.m_rotation.GetMatrixMul Vector2D.UP }

/-- Modelled from the spec: the step of the separating-axis test of `OBB2D`,
which is not among the sources, that projects the centre and the half-extents of
a box onto an axis. The result is the interval `(centre − extent, centre + extent)`. -/
def projectedInterval (b : OBB2D) (axis : Vector2D) : ℚ × ℚ :=
  let centre : ℚ := b.m_position.Convert2D.DotProduct axis
  let extent : ℚ :=
    b.m_halfDimension.X * |b.m_rightAxis.DotProduct axis| +
    b.m_halfDimension.Y * |b.m_upAxis.DotProduct axis|
  (centre - extent, centre + extent)

/-- Modelled from the spec: the step of the separating-axis test of `OBB2D`,
which is not among the sources, that decides whether the projected intervals of
two boxes are disjoint on an axis. -/
def separatedOn (a b : OBB2D) (axis : Vector2D) : Bool :=
  decide ((a.projectedInterval axis).2 < (b.projectedInterval axis).1) ||
  decide ((b.projectedInterval axis).2 < (a.projectedInterval axis).1)

/-- Modelled from the spec: `OBB2D::IsColliding(const OBB2D&)`, which is not
among the sources. The separating-axis test over the four candidate axes, two
per box: the boxes collide when no axis separates them. -/
def IsColliding (a b : OBB2D) : Bool :=
  !([a.m_rightAxis, a.m_upAxis, b.m_rightAxis, b.m_upAxis].any (a.separatedOn b))

/-- Modelled from the spec: the degenerate `OBB2D` with zero rotation that
`OBB2D::IsColliding(const AABB2D&)`, which is not among the sources, makes of an
`AABB2D`; the extents come from `GetScale()` and `GetDimension()`. -/
def ofAABB (other : AABB2D) : OBB2D where
  m_position := other.m_position
  m_rotation := ⟨fun v => v⟩
  m_scale := other.GetScale
  m_dimension := other.GetDimension
  m_halfDimension := (other.GetDimension.mul other.GetScale).divScalar 2
  m_rightAxis := Vector2D.RIGHT
  m_upAxis := Vector2D.UP

/-- Modelled from the spec: `OBB2D::IsColliding(const AABB2D&)`, which is not
among the sources. Treat the `AABB2D` as a degenerate `OBB2D` with zero rotation
and run the same separating-axis test. -/
def IsCollidingAABB (a : OBB2D) (other : AABB2D) : Bool :=
  a.IsColliding (ofAABB other)

/-- The `AABB2D` with the position and the extents (dimension and scale) of
an `OBB2D`, not yet updated. -/
def toAABB (o : OBB2D) : AABB2D where
  m_position := o.m_position
  m_min := ⟨0, 0⟩
  m_max := ⟨0, 0⟩
  m_scale := o.m_scale
  m_dimension := o.m_dimension
  m_halfDimension := ⟨0, 0⟩

end OBB2D

/-- Modelled from the spec: the body of `AABB2D::IsColliding(const OBB2D&)` is
not among the sources. Delegate to the box-box test of the `OBB2D`. -/
def AABB2D.IsCollidingOBB (b : AABB2D) (secondBox : OBB2D) : Bool :=
  secondBox.IsCollidingAABB b

/-! ## ScreenManager

The matrix stack and the two projection set-ups of `ScreenManager.cpp`. The
calls into OpenGL and SDL change no member and are left out. -/

/-- The class `Matrix4D`, whose header is not among the sources: sixteen floats
addressed through `operator[]` with an index from `0` to `15`. -/
abbrev Matrix4D : Type := Fin 16 → ℚ

namespace Matrix4D

/-- Modelled from the spec: the constant `Matrix4D::IDENTITY`, whose header is
not among the sources. The identity matrix: `1` at the indices `0`, `5`, `10` and
`15` of the diagonal and `0` elsewhere. -/
def IDENTITY : Matrix4D := fun i => if i = 0 ∨ i = 5 ∨ i = 10 ∨ i = 15 then 1 else 0

/-- The assignment `m[i] = v`. -/
def set (m : Matrix4D) (i : Fin 16) (v : ℚ) : Matrix4D := Function.update m i v

end Matrix4D

/-- The enum `ScreenOrigin2D` of `ScreenManager.h`, with the two values that
`Set2DScreen` tests for. -/
inductive ScreenOrigin2D where
  | TOP_LEFT
  | BOTTOM_LEFT
deriving DecidableEq, Repr

/-- The class `ScreenManager`: the members that the matrix stack and the
projection routines read and write. `m_width` and `m_height` are `int`s. -/
structure ScreenManager where
  m_width : ℤ
  m_height : ℤ
  m_pixelsPerUnit : ℤ
  m_projectionMatrix : Matrix4D
  m_modelViewMatrix : List Matrix4D

namespace ScreenManager

/-- The constructor `ScreenManager::ScreenManager()`. The argument is the value
of a default-constructed `Matrix4D`, which both the local `modelView` and the
member `m_projectionMatrix` have. -/
def new (defaultMatrix : Matrix4D) : ScreenManager where
  m_width := 0
  m_height := 0
  m_pixelsPerUnit := 0
  m_projectionMatrix := defaultMatrix
  m_modelViewMatrix := [defaultMatrix]

/-- The routine `ScreenManager::ModelViewMatrix()`: the last matrix of the
vector. `back()` of an empty vector is undefined, which is `none` here. -/
def ModelViewMatrix (s : ScreenManager) : Option Matrix4D :=
  s.m_modelViewMatrix.getLast?

/-- The routine `ScreenManager::ProjectionMatrix()`. -/
def ProjectionMatrix (s : ScreenManager) : Matrix4D := s.m_projectionMatrix

/-- The routine `ScreenManager::PushMatrix()`. `back()` of an empty vector is
undefined, which is `none` here. -/
def PushMatrix (s : ScreenManager) : Option ScreenManager :=
  match s.m_modelViewMatrix.getLast? with
  | none => none
  | some tempMatrix => some { s with m_modelViewMatrix := s.m_modelViewMatrix ++ [tempMatrix] }

/-- The routine `ScreenManager::PopMatrix()`. -/
def PopMatrix (s : ScreenManager) : ScreenManager :=
  if s.m_modelViewMatrix.length > 1 then
    { s with m_modelViewMatrix := s.m_modelViewMatrix.dropLast }
  else s

/-- A call of one of the two stack routines. -/
inductive StackCall where
  | push
  | pop
deriving DecidableEq, Repr

/-- Run a finite sequence of `PushMatrix()` and `PopMatrix()` calls, in order. -/
def runCalls : List StackCall → ScreenManager → Option ScreenManager
  | [], s => some s
  | StackCall.push :: rest, s =>
    match s.PushMatrix with
    | none => none
    | some s' => runCalls rest s'
  | StackCall.pop :: rest, s => runCalls rest s.PopMatrix

/-- The routine `ScreenManager::Set2DScreen`. -/
def Set2DScreen (s : ScreenManager) (screenOrigin : ScreenOrigin2D) : ScreenManager :=
  let m : Matrix4D := Matrix4D.IDENTITY
  let m := m.set 0 (2 / (s.m_width : ℚ))
  let m := m.set 10 (-1)
  let m := m.set 12 (-1)
  let m := m.set 14 0
  let m := m.set 15 1
  let m :=
    if screenOrigin = ScreenOrigin2D.TOP_LEFT then
      (m.set 5 (2 / ((-s.m_height : ℤ) : ℚ))).set 13 1
    else if screenOrigin = ScreenOrigin2D.BOTTOM_LEFT then
      (m.set 5 (2 / (s.m_height : ℚ))).set 13 (-1)
    else m
  { s with m_projectionMatrix := m }

/-- The local `aspectRatio` of `Set3DScreen`: `(float)(m_width / m_height)`, the
quotient of two `int`s, rounded towards zero, converted to `float`. -/
def aspectRatio (s : ScreenManager) : ℚ := ((Int.tdiv s.m_width s.m_height : ℤ) : ℚ)

/-- The local `formula` of `Set3DScreen`: `1.0f / tan(radian / 2)` with
`radian = fieldOfView / 180.0f * 3.14159265359f`. The library function `tan` is
an argument. -/
def perspectiveFormula (tan : ℚ → ℚ) (fieldOfView : ℚ) : ℚ :=
  let radian : ℚ := fieldOfView / 180 * 3.14159265359
  1 / tan (radian / 2)

/-- The routine `ScreenManager::Set3DScreen`. The library function `tan` is an
argument. The division of `int`s by zero in `m_width / m_height` is undefined,
which is `none` here. -/
def Set3DScreen (tan : ℚ → ℚ) (s : ScreenManager) (fieldOfView nearClip farClip : ℚ) :
    Option ScreenManager :=
  let m : Matrix4D := Matrix4D.IDENTITY
  let formula : ℚ := perspectiveFormula tan fieldOfView
  if s.m_height = 0 then none
  else
    let aspectRatio : ℚ := s.aspectRatio
    let m := m.set 0 (formula / aspectRatio)
    let m := m.set 5 formula
    let m := m.set 10 ((farClip + nearClip) / (nearClip - farClip))
    let m := m.set 11 (-1)
    let m := m.set 14 ((2 * farClip * nearClip) / (nearClip - farClip))
    let m := m.set 15 0
    some { s with m_projectionMatrix := m }

end ScreenManager

/-- The matrix of `glOrtho(left, right, bottom, top, near, far)` as the OpenGL
reference page gives it, stored column by column. -/
def glOrtho (left right bottom top near far : ℚ) : Matrix4D := fun i =>
  if i = 0 then 2 / (right - left)
  else if i = 5 then 2 / (top - bottom)
  else if i = 10 then -2 / (far - near)
  else if i = 12 then -((right + left) / (right - left))
  else if i = 13 then -((top + bottom) / (top - bottom))
  else if i = 14 then -((far + near) / (far - near))
  else if i = 15 then 1
  else 0

/-! ## ShaderManager

The three shader ID maps of `ShaderManager.cpp` and the routine `Destroy`. -/

/-- The enum `ShaderType` of `ShaderManager.h`, with the three values that the
routines switch over. -/
inductive ShaderType where
  | VERTEX_SHADER
  | FRAGMENT_SHADER
  | GEOMETRY_SHADER
deriving DecidableEq, Repr

/-- The enum `RemoveType` of `ShaderManager.h`, with the two values that
`Destroy` tests for. -/
inductive RemoveType where
  | CUSTOM_SHADER
  | ALL_SHADERS
deriving DecidableEq, Repr

/-- A `std::map<std::string, GLuint>`: its entries in the order of iteration.
The keys of a map are distinct. -/
abbrev ShaderIDMap : Type := List (String × ℕ)

/-- The class `ShaderManager`. -/
structure ShaderManager where
  m_program : ℕ
  m_vertexShaderIDMap : ShaderIDMap
  m_fragmentShaderIDMap : ShaderIDMap
  m_geometryShaderIDMap : ShaderIDMap
deriving DecidableEq, Repr

namespace ShaderManager

/-- The map that the `switch` over the shader type makes `tempMap` point to. -/
def getMap (sm : ShaderManager) : ShaderType → ShaderIDMap
  | ShaderType.VERTEX_SHADER => sm.m_vertexShaderIDMap
  | ShaderType.FRAGMENT_SHADER => sm.m_fragmentShaderIDMap
  | ShaderType.GEOMETRY_SHADER => sm.m_geometryShaderIDMap

/-- A write through the pointer `tempMap`. -/
def setMap (sm : ShaderManager) (shaderType : ShaderType) (m : ShaderIDMap) : ShaderManager :=
  match shaderType with
  | ShaderType.VERTEX_SHADER => { sm with m_vertexShaderIDMap := m }
  | ShaderType.FRAGMENT_SHADER => { sm with m_fragmentShaderIDMap := m }
  | ShaderType.GEOMETRY_SHADER => { sm with m_geometryShaderIDMap := m }

/-- The `for` loop of `ShaderManager::Destroy` from the entry the iterator is
at: the entries from there on as the loop leaves them, and the IDs it passes to
`glDeleteShader`, in order. For `CUSTOM_SHADER` the loop erases the first entry
with the key `mapIndex` and breaks. -/
def destroyLoop (removeType : RemoveType) (mapIndex : String) :
    ShaderIDMap → ShaderIDMap × List ℕ
  | [] => ([], [])
  | (first, second) :: rest =>
    if removeType = RemoveType.CUSTOM_SHADER then
      if first = mapIndex then (rest, [second])
      else ((first, second) :: (destroyLoop removeType mapIndex rest).1,
        (destroyLoop removeType mapIndex rest).2)
    else if removeType = RemoveType.ALL_SHADERS then
      ((first, second) :: (destroyLoop removeType mapIndex rest).1,
        second :: (destroyLoop removeType mapIndex rest).2)
    else
      ((first, second) :: (destroyLoop removeType mapIndex rest).1,
        (destroyLoop removeType mapIndex rest).2)

/-- The routine `ShaderManager::Destroy`: the manager it leaves, and the IDs it
passes to `glDeleteShader`, in order. -/
def Destroy (sm : ShaderManager) (shaderType : ShaderType) (removeType : RemoveType)
    (mapIndex : String) : ShaderManager × List ℕ :=
  let tempMap : ShaderIDMap := sm.getMap shaderType
  let afterLoop := destroyLoop removeType mapIndex tempMap
  let tempMap : ShaderIDMap :=
    if removeType = RemoveType.ALL_SHADERS then [] else afterLoop.1
  (sm.setMap shaderType tempMap, afterLoop.2)

end ShaderManager

/-! ## Concrete inputs -/

/-- A screen manager after construction and `Initialize` with a `1024 × 768`
window. -/
def exampleScreen : ScreenManager :=
  { ScreenManager.new Matrix4D.IDENTITY with m_width := 1024, m_height := 768 }

/-- A shader manager with two vertex shaders and a fragment shader. -/
def exampleShaders : ShaderManager where
  m_program := 1
  m_vertexShaderIDMap := [("a", 2), ("b", 3)]
  m_fragmentShaderIDMap := [("a", 4)]
  m_geometryShaderIDMap := []


/-- A plane at `(1, 2)` whose rotation is a quarter turn, not yet updated. -/
def examplePlane : Plane2D where
  m_position := ⟨1, 2, 0⟩
  m_rotation := ⟨fun v => ⟨-v.Y, v.X⟩⟩
  m_sideOfPlane := 0
  m_distanceFromOrigin := 0
  m_point_1 := ⟨0, 0⟩
  m_point_2 := ⟨0, 0⟩
  m_normal := ⟨0, 0⟩

/-- A plane at `(1, 2)` whose rotation takes the right axis to the `float`
values nearest to `(0.6, 0.8)`, that is `10066330 / 2^24` and `13421773 / 2^24`,
not yet updated. -/
def roundedPlane : Plane2D where
  m_position := ⟨1, 2, 0⟩
  m_rotation := ⟨fun _ => ⟨10066330 / 16777216, 13421773 / 16777216⟩⟩
  m_sideOfPlane := 0
  m_distanceFromOrigin := 0
  m_point_1 := ⟨0, 0⟩
  m_point_2 := ⟨0, 0⟩
  m_normal := ⟨0, 0⟩

/-- A box of dimension `2 × 2` and scale `1` centred at `(cx, cy)`, not yet
updated. -/
def exampleBox (cx cy : ℚ) : AABB2D where
  m_position := ⟨cx, cy, 0⟩
  m_min := ⟨0, 0⟩
  m_max := ⟨0, 0⟩
  m_scale := ⟨1, 1⟩
  m_dimension := ⟨2, 2⟩
  m_halfDimension := ⟨0, 0⟩

/-- An oriented box of dimension `2 × 2` and scale `1` centred at `(cx, cy)`
with zero rotation, not yet updated. -/
def exampleOBB (cx cy : ℚ) : OBB2D where
  m_position := ⟨cx, cy, 0⟩
  m_rotation := ⟨fun v => v⟩
  m_scale := ⟨1, 1⟩
  m_dimension := ⟨2, 2⟩
  m_halfDimension := ⟨0, 0⟩
  m_rightAxis := ⟨0, 0⟩
  m_upAxis := ⟨0, 0⟩

/-! ## Plane2D: properties -/

/-- C1: `SideOfPlane(x, y)` is `POSITIVE_SIDE` exactly when
`normal · (x, y) − distanceFromOrigin` is positive, `NEGATIVE_SIDE` exactly when
it is negative and `ON_PLANE` exactly when it is zero, for every plane state
and every point; one of the three values is returned for every input. -/
theorem Plane2D.SideOfPlane_sign (p : Plane2D) (x y : ℚ) :
    (p.SideOfPlane x y = PlaneSide.POSITIVE_SIDE ↔
        0 < p.m_normal.DotProduct ⟨x, y⟩ - p.m_distanceFromOrigin) ∧
    (p.SideOfPlane x y = PlaneSide.NEGATIVE_SIDE ↔
        p.m_normal.DotProduct ⟨x, y⟩ - p.m_distanceFromOrigin < 0) ∧
    (p.SideOfPlane x y = PlaneSide.ON_PLANE ↔
        p.m_normal.DotProduct ⟨x, y⟩ - p.m_distanceFromOrigin = 0) ∧
    (p.SideOfPlane x y = PlaneSide.POSITIVE_SIDE ∨
      p.SideOfPlane x y = PlaneSide.NEGATIVE_SIDE ∨
      p.SideOfPlane x y = PlaneSide.ON_PLANE) := by
  unfold Plane2D.SideOfPlane
  rcases lt_trichotomy (p.m_normal.DotProduct ⟨x, y⟩ - p.m_distanceFromOrigin) 0 with h | h | h
  · have h1 : ¬ (p.m_normal.DotProduct ⟨x, y⟩ - p.m_distanceFromOrigin > 0) := not_lt.mpr h.le
    simp [h1, h, h.ne, not_lt.mpr h.le]
  · simp [h]
  · have h1 : ¬ (p.m_normal.DotProduct ⟨x, y⟩ - p.m_distanceFromOrigin < 0) := not_lt.mpr h.le
    simp [h, h1, h.ne', not_lt.mpr h.le]

/-- C2: `IsColliding(s)` is true exactly when the absolute value of the signed
distance `normal · s.position − distanceFromOrigin` is at most `s.radius`, for
every plane state and every sphere; the distance is compared as it is, so the
test is the two-sided bound `−radius ≤ distance ≤ radius`. -/
theorem Plane2D.IsColliding_iff_abs_le (p : Plane2D) (s : Sphere2D) :
    (p.IsColliding s = true ↔
      |p.m_normal.DotProduct s.m_position.Convert2D - p.m_distanceFromOrigin| ≤ s.m_radius) ∧
    (p.IsColliding s = true ↔
      -s.m_radius ≤ p.m_normal.DotProduct s.m_position.Convert2D - p.m_distanceFromOrigin ∧
      p.m_normal.DotProduct s.m_position.Convert2D - p.m_distanceFromOrigin ≤ s.m_radius) := by
  have h : p.IsColliding s = true ↔
      |p.m_normal.DotProduct s.m_position.Convert2D - p.m_distanceFromOrigin| ≤ s.m_radius := by
    simp [Plane2D.IsColliding, Sphere2D.GetPosition, Sphere2D.GetRadius]
  exact ⟨h, h.trans abs_le⟩

/-- C3: after `Update()`, the stored `distanceFromOrigin` is the dot product of
the stored normal with the 2D position of the plane, for every position and
every rotation. -/
theorem Plane2D.Update_distanceFromOrigin (p : Plane2D) :
    p.Update.m_distanceFromOrigin =
      p.Update.m_normal.DotProduct p.Update.m_position.Convert2D ∧
    p.Update.m_position = p.m_position ∧
    p.Update.m_distanceFromOrigin =
      -(p.m_rotation.GetMatrixMul Vector2D.RIGHT).Y * p.m_position.X +
        (p.m_rotation.GetMatrixMul Vector2D.RIGHT).X * p.m_position.Y := by
  exact ⟨rfl, rfl, rfl⟩

/-- C4: after `Update()`, the normal is perpendicular to the rotated right axis
and has the same squared length; so when the rotation maps `RIGHT` to a unit
vector, the normal is unit-length. -/
theorem Plane2D.Update_normal_perpendicular (p : Plane2D) :
    p.Update.m_normal.DotProduct p.rotatedRightAxis = 0 ∧
    p.Update.m_normal.DotProduct p.Update.m_normal =
      p.rotatedRightAxis.DotProduct p.rotatedRightAxis ∧
    (p.rotatedRightAxis.DotProduct p.rotatedRightAxis = 1 →
      p.Update.m_normal.DotProduct p.Update.m_normal = 1) := by
  have hlen : p.Update.m_normal.DotProduct p.Update.m_normal =
      p.rotatedRightAxis.DotProduct p.rotatedRightAxis := by
    simp only [Plane2D.Update, Plane2D.rotatedRightAxis, Vector2D.DotProduct]
    ring
  refine ⟨?_, hlen, fun h => hlen.trans h⟩
  simp only [Plane2D.Update, Plane2D.rotatedRightAxis, Vector2D.DotProduct]
  ring

/-- C6: `Update()` is idempotent: a second call with unchanged inputs leaves
`point1`, `point2`, `normal` and `distanceFromOrigin`, and with them the whole
state, as the first call left them. -/
theorem Plane2D.Update_idempotent (p : Plane2D) :
    p.Update.Update = p.Update ∧
    p.Update.Update.m_point_1 = p.Update.m_point_1 ∧
    p.Update.Update.m_point_2 = p.Update.m_point_2 ∧
    p.Update.Update.m_normal = p.Update.m_normal ∧
    p.Update.Update.m_distanceFromOrigin = p.Update.m_distanceFromOrigin := by
  exact ⟨rfl, rfl, rfl, rfl, rfl⟩

/-! ## AABB2D: properties -/

/-- The box-box test, unfolded into its four comparisons. -/
theorem AABB2D.IsColliding_eq_true_iff (A B : AABB2D) :
    A.IsColliding B = true ↔
      A.m_min.X ≤ B.m_max.X ∧ A.m_max.X ≥ B.m_min.X ∧
      A.m_min.Y ≤ B.m_max.Y ∧ A.m_max.Y ≥ B.m_min.Y := by
  simp [AABB2D.IsColliding, and_assoc]

/-- C7: `A.IsColliding(B)` is true exactly when `A.min.x ≤ B.max.x`,
`A.max.x ≥ B.min.x`, `A.min.y ≤ B.max.y` and `A.max.y ≥ B.min.y`, for every pair
of box states, updated ones among them; in particular two boxes (each with
`min.x ≤ max.x`) that share an edge, `A.max.x = B.min.x` with overlapping Y
intervals, collide. -/
theorem AABB2D.IsColliding_iff_overlap (A B : AABB2D) :
    (A.IsColliding B = true ↔
      A.m_min.X ≤ B.m_max.X ∧ A.m_max.X ≥ B.m_min.X ∧
      A.m_min.Y ≤ B.m_max.Y ∧ A.m_max.Y ≥ B.m_min.Y) ∧
    (A.m_min.X ≤ A.m_max.X → B.m_min.X ≤ B.m_max.X →
      A.m_max.X = B.m_min.X → A.m_min.Y ≤ B.m_max.Y → A.m_max.Y ≥ B.m_min.Y →
      A.IsColliding B = true) := by
  refine ⟨AABB2D.IsColliding_eq_true_iff A B, ?_⟩
  intro hA hB hedge hy1 hy2
  rw [AABB2D.IsColliding_eq_true_iff]
  exact ⟨by linarith, by linarith, hy1, hy2⟩

/-- C8: the box-box test is symmetric: `A.IsColliding(B)` and
`B.IsColliding(A)` are the same value for all boxes `A` and `B`. -/
theorem AABB2D.IsColliding_symm (A B : AABB2D) :
    A.IsColliding B = B.IsColliding A := by
  rw [Bool.eq_iff_iff, AABB2D.IsColliding_eq_true_iff, AABB2D.IsColliding_eq_true_iff]
  constructor
  · rintro ⟨h1, h2, h3, h4⟩
    exact ⟨h2, h1, h4, h3⟩
  · rintro ⟨h1, h2, h3, h4⟩
    exact ⟨h2, h1, h4, h3⟩

/-- On a non-empty interval the clamp is `max lo (min v hi)`. -/
theorem clamp_eq_max_min (v lo hi : ℚ) (h : lo ≤ hi) : clamp v lo hi = max lo (min v hi) := by
  unfold clamp
  split_ifs with h1 h2
  · rw [max_eq_left]
    exact (min_le_left _ _).trans h1.le
  · rw [min_eq_right h2.le, max_eq_right h]
  · rw [min_eq_left (not_lt.mp h2), max_eq_right (not_lt.mp h1)]

/-- The clamp lands in the interval. -/
theorem clamp_mem (v lo hi : ℚ) (h : lo ≤ hi) : lo ≤ clamp v lo hi ∧ clamp v lo hi ≤ hi := by
  unfold clamp
  split_ifs with h1 h2
  · exact ⟨le_refl _, h⟩
  · exact ⟨h, le_refl _⟩
  · exact ⟨not_lt.mp h1, not_lt.mp h2⟩

/-- The clamp fixes the points of the interval. -/
theorem clamp_of_mem (v lo hi : ℚ) (h1 : lo ≤ v) (h2 : v ≤ hi) : clamp v lo hi = v := by
  unfold clamp
  rw [if_neg (not_lt.mpr h1), if_neg (not_lt.mpr h2)]

/-- The clamp of a point outside the interval is an end of the interval. -/
theorem clamp_of_not_mem (v lo hi : ℚ) (h : ¬ (lo ≤ v ∧ v ≤ hi)) :
    clamp v lo hi = lo ∨ clamp v lo hi = hi := by
  unfold clamp
  split_ifs with h1 h2
  · exact Or.inl rfl
  · exact Or.inr rfl
  · exact absurd ⟨not_lt.mp h1, not_lt.mp h2⟩ h

/-- No point of the interval is nearer to `v` than the clamp of `v`. -/
theorem clamp_sq_le (v lo hi q : ℚ) (h1 : lo ≤ q) (h2 : q ≤ hi) :
    (clamp v lo hi - v) * (clamp v lo hi - v) ≤ (q - v) * (q - v) := by
  unfold clamp
  split_ifs with h3 h4
  · nlinarith
  · nlinarith
  · nlinarith [mul_self_nonneg (q - v)]

/-- The point returned by `PointOnBox` is in the box when the box is not
inverted. -/
theorem AABB2D.PointOnBox_contains (b : AABB2D) (hx : b.m_min.X ≤ b.m_max.X)
    (hy : b.m_min.Y ≤ b.m_max.Y) (x y : ℚ) : b.Contains (b.PointOnBox x y) := by
  have h1 := clamp_mem x _ _ hx
  have h2 := clamp_mem y _ _ hy
  exact ⟨h1.1, h1.2, h2.1, h2.2⟩

/-- A point of the box is its own `PointOnBox`. -/
theorem AABB2D.PointOnBox_of_contains (b : AABB2D) (x y : ℚ) (h : b.Contains ⟨x, y⟩) :
    b.PointOnBox x y = ⟨x, y⟩ := by
  obtain ⟨h1, h2, h3, h4⟩ := h
  simp only [AABB2D.PointOnBox, clamp_of_mem x _ _ h1 h2, clamp_of_mem y _ _ h3 h4]

/-- No point of the box is nearer (in squared distance) to `(x, y)` than
`PointOnBox(x, y)`. -/
theorem AABB2D.PointOnBox_distSq_le (b : AABB2D) (x y : ℚ) (q : Vector2D) (h : b.Contains q) :
    (b.PointOnBox x y).distSq ⟨x, y⟩ ≤ q.distSq ⟨x, y⟩ := by
  obtain ⟨h1, h2, h3, h4⟩ := h
  simp only [AABB2D.PointOnBox, Vector2D.distSq]
  exact add_le_add (clamp_sq_le x _ _ q.X h1 h2) (clamp_sq_le y _ _ q.Y h3 h4)

/-- C9: for a box with `min ≤ max` on both axes and every point `p = (x, y)`,
`PointOnBox(p)` is the component-wise clamp of `p` to `[min, max]`, a point of
the box; it is `p` itself when `p` is strictly inside the box (indeed whenever
`p` is in the box); when `p` is outside it lies on the boundary of the box; and
no point of the box is closer to `p`, in squared and in Euclidean distance. -/
theorem AABB2D.PointOnBox_clamp_closest (b : AABB2D) (hx : b.m_min.X ≤ b.m_max.X)
    (hy : b.m_min.Y ≤ b.m_max.Y) (x y : ℚ) :
    ((b.PointOnBox x y).X = max b.m_min.X (min x b.m_max.X) ∧
      (b.PointOnBox x y).Y = max b.m_min.Y (min y b.m_max.Y)) ∧
    b.Contains (b.PointOnBox x y) ∧
    (b.StrictlyInside ⟨x, y⟩ → b.PointOnBox x y = ⟨x, y⟩) ∧
    (b.Contains ⟨x, y⟩ → b.PointOnBox x y = ⟨x, y⟩) ∧
    (¬ b.Contains ⟨x, y⟩ → b.OnBoundary (b.PointOnBox x y)) ∧
    (∀ q : Vector2D, b.Contains q →
      (b.PointOnBox x y).distSq ⟨x, y⟩ ≤ q.distSq ⟨x, y⟩) ∧
    (∀ q : Vector2D, b.Contains q →
      Real.sqrt (((b.PointOnBox x y).distSq ⟨x, y⟩ : ℚ) : ℝ) ≤
        Real.sqrt ((q.distSq ⟨x, y⟩ : ℚ) : ℝ)) := by
  refine ⟨⟨clamp_eq_max_min x _ _ hx, clamp_eq_max_min y _ _ hy⟩,
    AABB2D.PointOnBox_contains b hx hy x y, ?_, AABB2D.PointOnBox_of_contains b x y, ?_,
    fun q hq => AABB2D.PointOnBox_distSq_le b x y q hq, ?_⟩
  · rintro ⟨h1, h2, h3, h4⟩
    exact AABB2D.PointOnBox_of_contains b x y ⟨h1.le, h2.le, h3.le, h4.le⟩
  · intro hout
    refine ⟨AABB2D.PointOnBox_contains b hx hy x y, ?_⟩
    by_cases hxin : b.m_min.X ≤ x ∧ x ≤ b.m_max.X
    · have hyout : ¬ (b.m_min.Y ≤ y ∧ y ≤ b.m_max.Y) := fun hyin =>
        hout ⟨hxin.1, hxin.2, hyin.1, hyin.2⟩
      rcases clamp_of_not_mem y _ _ hyout with h | h
      · exact Or.inr (Or.inr (Or.inl h))
      · exact Or.inr (Or.inr (Or.inr h))
    · rcases clamp_of_not_mem x _ _ hxin with h | h
      · exact Or.inl h
      · exact Or.inr (Or.inl h)
  · intro q hq
    apply Real.sqrt_le_sqrt
    exact_mod_cast AABB2D.PointOnBox_distSq_le b x y q hq

/-- C10: `IsColliding(s)` is true exactly when the Euclidean distance from
`PointOnBox(s.position)` to `s.position` is at most `s.radius`, for every box
state, updated ones among them; so a sphere of radius `≥ 0` whose centre is in
the box collides, and a sphere of radius `0` centred on a corner of a box with
`min ≤ max` collides. -/
theorem AABB2D.IsCollidingSphere_iff_dist_le (b : AABB2D) (s : Sphere2D) :
    (b.IsCollidingSphere s = true ↔
      Real.sqrt (((b.PointOnBox s.m_position.Convert2D.X s.m_position.Convert2D.Y).distSq
        s.m_position.Convert2D : ℚ) : ℝ) ≤ ((s.m_radius : ℚ) : ℝ)) ∧
    (0 ≤ s.m_radius → b.Contains s.m_position.Convert2D → b.IsCollidingSphere s = true) ∧
    (b.m_min.X ≤ b.m_max.X → b.m_min.Y ≤ b.m_max.Y → s.m_radius = 0 →
      (s.m_position.Convert2D.X = b.m_min.X ∨ s.m_position.Convert2D.X = b.m_max.X) →
      (s.m_position.Convert2D.Y = b.m_min.Y ∨ s.m_position.Convert2D.Y = b.m_max.Y) →
      b.IsCollidingSphere s = true) := by
  have hdef : b.IsCollidingSphere s = true ↔
      0 ≤ s.m_radius ∧
      (b.PointOnBox s.m_position.Convert2D.X s.m_position.Convert2D.Y).distSq
        s.m_position.Convert2D ≤ s.m_radius * s.m_radius := by
    simp [AABB2D.IsCollidingSphere, Sphere2D.GetPosition, Sphere2D.GetRadius]
  have hin : 0 ≤ s.m_radius → b.Contains s.m_position.Convert2D →
      b.IsCollidingSphere s = true := by
    intro hr hc
    rw [hdef]
    refine ⟨hr, ?_⟩
    have hfix := AABB2D.PointOnBox_of_contains b s.m_position.Convert2D.X
      s.m_position.Convert2D.Y hc
    rw [hfix]
    simp only [Vector2D.distSq, sub_self, mul_zero, add_zero]
    exact mul_nonneg hr hr
  refine ⟨?_, hin, ?_⟩
  · rw [hdef, Real.sqrt_le_iff]
    constructor
    · rintro ⟨h1, h2⟩
      refine ⟨by exact_mod_cast h1, ?_⟩
      rw [sq]
      exact_mod_cast h2
    · rintro ⟨h1, h2⟩
      refine ⟨by exact_mod_cast h1, ?_⟩
      rw [sq] at h2
      exact_mod_cast h2
  · intro hx hy hr hcx hcy
    apply hin hr.ge
    rcases hcx with h | h <;> rcases hcy with h' | h' <;>
      simp only [AABB2D.Contains, h, h', le_refl, hx, hy, and_self]

/-! ## The properties at concrete inputs -/

/-- The quarter-turn plane: the rotated right axis `(0, 1)` is a unit vector,
and the normal after `Update()` is unit-length. -/
theorem Plane2D.Update_normal_perpendicular_witness :
    examplePlane.rotatedRightAxis.DotProduct examplePlane.rotatedRightAxis = 1 ∧
    examplePlane.Update.m_normal.DotProduct examplePlane.Update.m_normal = 1 :=
  ⟨by norm_num [examplePlane, Plane2D.rotatedRightAxis, Vector2D.DotProduct, Vector2D.RIGHT],
    (Plane2D.Update_normal_perpendicular examplePlane).2.2
      (by norm_num [examplePlane, Plane2D.rotatedRightAxis, Vector2D.DotProduct,
        Vector2D.RIGHT])⟩

/-- The quarter-turn plane at `(1, 2)` and a sphere of radius `3/10` centred at
`(1/2, 0)`: the signed distance is `1/2`, which exceeds the radius, so they do
not collide. -/
theorem Plane2D.IsColliding_iff_abs_le_witness :
    examplePlane.Update.m_normal.DotProduct (⟨1 / 2, 0⟩ : Vector2D) -
      examplePlane.Update.m_distanceFromOrigin = 1 / 2 ∧
    examplePlane.Update.IsColliding ⟨⟨1 / 2, 0, 0⟩, 3 / 10⟩ = false := by
  refine ⟨by norm_num [examplePlane, Plane2D.Update, Vector2D.DotProduct, Vector2D.RIGHT,
    Vector3D.Convert2D], ?_⟩
  rw [Bool.eq_false_iff]
  intro h
  have h2 := (Plane2D.IsColliding_iff_abs_le examplePlane.Update ⟨⟨1 / 2, 0, 0⟩, 3 / 10⟩).2.mp h
  norm_num [examplePlane, Plane2D.Update, Vector2D.DotProduct, Vector2D.RIGHT,
    Vector3D.Convert2D] at h2

/-- Two updated `2 × 2` boxes centred at `(0, 0)` and `(2, 0)` share the edge
`x = 1` and collide. -/
theorem AABB2D.IsColliding_iff_overlap_witness :
    (exampleBox 0 0).Update.m_max.X = (exampleBox 2 0).Update.m_min.X ∧
    (exampleBox 0 0).Update.IsColliding (exampleBox 2 0).Update = true :=
  ⟨by norm_num [exampleBox, AABB2D.Update, Vector2D.add, Vector2D.sub, Vector2D.mul,
      Vector2D.divScalar, Vector3D.Convert2D],
    (AABB2D.IsColliding_iff_overlap (exampleBox 0 0).Update (exampleBox 2 0).Update).2
      (by norm_num [exampleBox, AABB2D.Update, Vector2D.add, Vector2D.sub, Vector2D.mul,
        Vector2D.divScalar, Vector3D.Convert2D])
      (by norm_num [exampleBox, AABB2D.Update, Vector2D.add, Vector2D.sub, Vector2D.mul,
        Vector2D.divScalar, Vector3D.Convert2D])
      (by norm_num [exampleBox, AABB2D.Update, Vector2D.add, Vector2D.sub, Vector2D.mul,
        Vector2D.divScalar, Vector3D.Convert2D])
      (by norm_num [exampleBox, AABB2D.Update, Vector2D.add, Vector2D.sub, Vector2D.mul,
        Vector2D.divScalar, Vector3D.Convert2D])
      (by norm_num [exampleBox, AABB2D.Update, Vector2D.add, Vector2D.sub, Vector2D.mul,
        Vector2D.divScalar, Vector3D.Convert2D])⟩

/-- The updated `2 × 2` box centred at the origin is `[−1, 1] × [−1, 1]`; the
point `(5, 0)` is outside it and its `PointOnBox` is on the boundary. -/
theorem AABB2D.PointOnBox_clamp_closest_witness :
    ((exampleBox 0 0).Update.m_min.X ≤ (exampleBox 0 0).Update.m_max.X ∧
      (exampleBox 0 0).Update.m_min.Y ≤ (exampleBox 0 0).Update.m_max.Y) ∧
    ¬ (exampleBox 0 0).Update.Contains ⟨5, 0⟩ ∧
    (exampleBox 0 0).Update.OnBoundary ((exampleBox 0 0).Update.PointOnBox 5 0) :=
  ⟨by norm_num [exampleBox, AABB2D.Update, Vector2D.add, Vector2D.sub, Vector2D.mul,
      Vector2D.divScalar, Vector3D.Convert2D],
    by norm_num [exampleBox, AABB2D.Update, AABB2D.Contains, Vector2D.add, Vector2D.sub,
      Vector2D.mul, Vector2D.divScalar, Vector3D.Convert2D],
    (AABB2D.PointOnBox_clamp_closest (exampleBox 0 0).Update
      (by norm_num [exampleBox, AABB2D.Update, Vector2D.add, Vector2D.sub, Vector2D.mul,
        Vector2D.divScalar, Vector3D.Convert2D])
      (by norm_num [exampleBox, AABB2D.Update, Vector2D.add, Vector2D.sub, Vector2D.mul,
        Vector2D.divScalar, Vector3D.Convert2D]) 5 0).2.2.2.2.1
      (by norm_num [exampleBox, AABB2D.Update, AABB2D.Contains, Vector2D.add, Vector2D.sub,
        Vector2D.mul, Vector2D.divScalar, Vector3D.Convert2D])⟩

/-- A sphere of radius `0` centred on the corner `(1, 1)` of the updated
`2 × 2` box at the origin collides with it. -/
theorem AABB2D.IsCollidingSphere_iff_dist_le_witness :
    (exampleBox 0 0).Update.m_max = ⟨1, 1⟩ ∧
    (exampleBox 0 0).Update.IsCollidingSphere ⟨⟨1, 1, 0⟩, 0⟩ = true :=
  ⟨by norm_num [exampleBox, AABB2D.Update, Vector2D.add, Vector2D.sub, Vector2D.mul,
      Vector2D.divScalar, Vector3D.Convert2D],
    (AABB2D.IsCollidingSphere_iff_dist_le (exampleBox 0 0).Update ⟨⟨1, 1, 0⟩, 0⟩).2.2
      (by norm_num [exampleBox, AABB2D.Update, Vector2D.add, Vector2D.sub, Vector2D.mul,
        Vector2D.divScalar, Vector3D.Convert2D])
      (by norm_num [exampleBox, AABB2D.Update, Vector2D.add, Vector2D.sub, Vector2D.mul,
        Vector2D.divScalar, Vector3D.Convert2D])
      rfl
      (Or.inr (by norm_num [exampleBox, AABB2D.Update, Vector2D.add, Vector2D.sub,
        Vector2D.mul, Vector2D.divScalar, Vector3D.Convert2D]))
      (Or.inr (by norm_num [exampleBox, AABB2D.Update, Vector2D.add, Vector2D.sub,
        Vector2D.mul, Vector2D.divScalar, Vector3D.Convert2D]))⟩

/-! ## AABB2D and OBB2D: derived state -/

/-- After `Update()` a box with non-negative dimension and scale has
`min ≤ max` on both axes. -/
theorem AABB2D.Update_min_le_max_of_nonneg (b : AABB2D)
    (hdx : 0 ≤ b.m_dimension.X) (hdy : 0 ≤ b.m_dimension.Y)
    (hsx : 0 ≤ b.m_scale.X) (hsy : 0 ≤ b.m_scale.Y) :
    b.Update.m_min.X ≤ b.Update.m_max.X ∧ b.Update.m_min.Y ≤ b.Update.m_max.Y := by
  have hx : 0 ≤ b.m_dimension.X * b.m_scale.X / 2 := by positivity
  have hy : 0 ≤ b.m_dimension.Y * b.m_scale.Y / 2 := by positivity
  simp only [AABB2D.Update, Vector2D.sub, Vector2D.add, Vector2D.mul, Vector2D.divScalar]
  constructor <;> linarith

/-- C11: after `Update()`, `halfDimension = dimension * scale / 2`,
`min = position − halfDimension` and `max = position + halfDimension`; so for
every position and every dimension and scale with non-negative components,
`min.x ≤ max.x` and `min.y ≤ max.y`. -/
theorem AABB2D.Update_derived (b : AABB2D) :
    (b.Update.m_halfDimension =
        ⟨b.m_dimension.X * b.m_scale.X / 2, b.m_dimension.Y * b.m_scale.Y / 2⟩ ∧
      b.Update.m_min = ⟨b.m_position.X - b.Update.m_halfDimension.X,
        b.m_position.Y - b.Update.m_halfDimension.Y⟩ ∧
      b.Update.m_max = ⟨b.m_position.X + b.Update.m_halfDimension.X,
        b.m_position.Y + b.Update.m_halfDimension.Y⟩) ∧
    (0 ≤ b.m_dimension.X → 0 ≤ b.m_dimension.Y → 0 ≤ b.m_scale.X → 0 ≤ b.m_scale.Y →
      b.Update.m_min.X ≤ b.Update.m_max.X ∧ b.Update.m_min.Y ≤ b.Update.m_max.Y) := by
  exact ⟨⟨rfl, rfl, rfl⟩, AABB2D.Update_min_le_max_of_nonneg b⟩

/-- The separating-axis test of an updated, unrotated `OBB2D` against an
`AABB2D`, unfolded: the centres are no further apart on either axis than the sum
of the half-extents. -/
theorem OBB2D.IsCollidingAABB_zero_rotation_iff (o : OBB2D) (a : AABB2D)
    (hR : o.m_rotation.GetMatrixMul Vector2D.RIGHT = Vector2D.RIGHT)
    (hU : o.m_rotation.GetMatrixMul Vector2D.UP = Vector2D.UP) :
    o.Update.IsCollidingAABB a = true ↔
      |o.m_position.X - a.m_position.X| ≤
        o.m_dimension.X * o.m_scale.X / 2 + a.m_dimension.X * a.m_scale.X / 2 ∧
      |o.m_position.Y - a.m_position.Y| ≤
        o.m_dimension.Y * o.m_scale.Y / 2 + a.m_dimension.Y * a.m_scale.Y / 2 := by
  simp only [Vector2D.RIGHT, Vector2D.UP] at hR hU
  simp only [OBB2D.IsCollidingAABB, OBB2D.IsColliding, OBB2D.separatedOn,
    OBB2D.projectedInterval, OBB2D.Update, OBB2D.ofAABB, hR, hU, Vector2D.RIGHT, Vector2D.UP,
    Vector2D.DotProduct, Vector2D.mul, Vector2D.divScalar, Vector3D.Convert2D,
    AABB2D.GetScale, AABB2D.GetDimension, List.any_cons, List.any_nil, Bool.or_false,
    Bool.not_eq_true', Bool.or_eq_false_iff, decide_eq_false_iff_not, not_lt, mul_one,
    mul_zero, add_zero, zero_add, abs_one, abs_zero, abs_le]
  constructor
  · rintro ⟨⟨h1, h2⟩, ⟨h3, h4⟩, -, -⟩
    exact ⟨⟨by linarith, by linarith⟩, ⟨by linarith, by linarith⟩⟩
  · rintro ⟨⟨h1, h2⟩, ⟨h3, h4⟩⟩
    exact ⟨⟨by linarith, by linarith⟩, ⟨by linarith, by linarith⟩,
      ⟨by linarith, by linarith⟩, ⟨by linarith, by linarith⟩⟩

/-- C12: for every `OBB2D` with zero rotation and every `AABB2D`, the
OBB-vs-AABB test, to which `AABB2D::IsColliding(OBB2D)` delegates, gives the
result of the direct AABB-AABB test on the updated boxes with the same positions
and extents. -/
theorem OBB2D.IsCollidingAABB_zero_rotation_eq_AABB (o : OBB2D) (a : AABB2D)
    (hR : o.m_rotation.GetMatrixMul Vector2D.RIGHT = Vector2D.RIGHT)
    (hU : o.m_rotation.GetMatrixMul Vector2D.UP = Vector2D.UP) :
    o.Update.IsCollidingAABB a.Update = o.toAABB.Update.IsColliding a.Update ∧
    a.Update.IsCollidingOBB o.Update = a.Update.IsColliding o.toAABB.Update ∧
    a.Update.IsCollidingOBB o.Update = o.Update.IsCollidingAABB a.Update := by
  have h1 : o.Update.IsCollidingAABB a.Update = o.toAABB.Update.IsColliding a.Update := by
    rw [Bool.eq_iff_iff, OBB2D.IsCollidingAABB_zero_rotation_iff o a.Update hR hU,
      AABB2D.IsColliding_eq_true_iff]
    simp only [AABB2D.Update, OBB2D.toAABB, Vector2D.sub, Vector2D.add, Vector2D.mul,
      Vector2D.divScalar, Vector3D.Convert2D, abs_le]
    constructor
    · rintro ⟨⟨h1, h2⟩, ⟨h3, h4⟩⟩
      exact ⟨by linarith, by linarith, by linarith, by linarith⟩
    · rintro ⟨h1, h2, h3, h4⟩
      exact ⟨⟨by linarith, by linarith⟩, ⟨by linarith, by linarith⟩⟩
  refine ⟨h1, ?_, rfl⟩
  have h2 : a.Update.IsCollidingOBB o.Update = o.Update.IsCollidingAABB a.Update := rfl
  rw [h2, h1, Bool.eq_iff_iff, AABB2D.IsColliding_eq_true_iff, AABB2D.IsColliding_eq_true_iff]
  constructor
  · rintro ⟨h1, h2, h3, h4⟩
    exact ⟨h2, h1, h4, h3⟩
  · rintro ⟨h1, h2, h3, h4⟩
    exact ⟨h2, h1, h4, h3⟩

/-- Two updated `2 × 2` boxes, an unrotated `OBB2D` at the origin and an
`AABB2D` at `(2, 0)`, touch along `x = 1`: both tests report a collision. -/
theorem OBB2D.IsCollidingAABB_zero_rotation_eq_AABB_witness :
    (exampleOBB 0 0).Update.IsCollidingAABB (exampleBox 2 0).Update =
      (exampleOBB 0 0).toAABB.Update.IsColliding (exampleBox 2 0).Update ∧
    (exampleOBB 0 0).toAABB.Update.IsColliding (exampleBox 2 0).Update = true :=
  ⟨(OBB2D.IsCollidingAABB_zero_rotation_eq_AABB (exampleOBB 0 0) (exampleBox 2 0) rfl rfl).1,
    by norm_num [exampleOBB, exampleBox, OBB2D.toAABB, AABB2D.Update, AABB2D.IsColliding,
      Vector2D.add, Vector2D.sub, Vector2D.mul, Vector2D.divScalar, Vector3D.Convert2D]⟩

/-- The updated `2 × 2` box at `(3, 4)`: dimension and scale are non-negative
and `min = (2, 3) ≤ max = (4, 5)` on both axes. -/
theorem AABB2D.Update_derived_witness :
    (exampleBox 3 4).Update.m_min = ⟨2, 3⟩ ∧ (exampleBox 3 4).Update.m_max = ⟨4, 5⟩ ∧
    (exampleBox 3 4).Update.m_min.X ≤ (exampleBox 3 4).Update.m_max.X ∧
    (exampleBox 3 4).Update.m_min.Y ≤ (exampleBox 3 4).Update.m_max.Y :=
  ⟨by norm_num [exampleBox, AABB2D.Update, Vector2D.sub, Vector2D.mul, Vector2D.divScalar,
      Vector3D.Convert2D],
    by norm_num [exampleBox, AABB2D.Update, Vector2D.add, Vector2D.mul, Vector2D.divScalar,
      Vector3D.Convert2D],
    (AABB2D.Update_derived (exampleBox 3 4)).2 (by norm_num [exampleBox])
      (by norm_num [exampleBox]) (by norm_num [exampleBox]) (by norm_num [exampleBox])⟩

/-! ## ScreenManager: the matrix stack -/

/-- On a non-empty stack `PushMatrix()` succeeds and appends the last matrix. -/
theorem ScreenManager.PushMatrix_eq_of_ne_nil (s : ScreenManager)
    (h : s.m_modelViewMatrix ≠ []) :
    s.PushMatrix = some { s with
      m_modelViewMatrix := s.m_modelViewMatrix ++ [s.m_modelViewMatrix.getLast h] } := by
  unfold ScreenManager.PushMatrix
  rw [List.getLast?_eq_getLast _ h]

/-- The routine `PopMatrix()` never empties a non-empty stack. -/
theorem ScreenManager.PopMatrix_length_pos (s : ScreenManager)
    (h : 1 ≤ s.m_modelViewMatrix.length) : 1 ≤ s.PopMatrix.m_modelViewMatrix.length := by
  unfold ScreenManager.PopMatrix
  split_ifs with h1
  · simp only [List.length_dropLast]
    omega
  · exact h

/-- From a non-empty stack every sequence of calls runs to the end and leaves a
non-empty stack. -/
theorem ScreenManager.runCalls_length_pos (calls : List ScreenManager.StackCall) :
    ∀ s : ScreenManager, 1 ≤ s.m_modelViewMatrix.length →
      ∃ s', ScreenManager.runCalls calls s = some s' ∧ 1 ≤ s'.m_modelViewMatrix.length := by
  induction calls with
  | nil => intro s h; exact ⟨s, rfl, h⟩
  | cons c rest ih =>
    intro s h
    cases c with
    | push =>
      have hne : s.m_modelViewMatrix ≠ [] := by
        intro h0
        rw [h0] at h
        simp at h
      simp only [ScreenManager.runCalls, ScreenManager.PushMatrix_eq_of_ne_nil s hne]
      apply ih
      simp
    | pop =>
      simp only [ScreenManager.runCalls]
      exact ih _ (ScreenManager.PopMatrix_length_pos s h)

/-- C13: the model-view matrix stack is never empty: it holds exactly one
matrix after construction; every finite sequence of `PushMatrix()` and
`PopMatrix()` calls runs to the end and leaves at least one matrix, so that
`ModelViewMatrix()` has a last element to return; and `PopMatrix()` on a stack
of one matrix changes nothing. -/
theorem ScreenManager.stack_never_empty (defaultMatrix : Matrix4D) :
    (ScreenManager.new defaultMatrix).m_modelViewMatrix.length = 1 ∧
    (∀ calls : List ScreenManager.StackCall, ∃ s',
      ScreenManager.runCalls calls (ScreenManager.new defaultMatrix) = some s' ∧
      1 ≤ s'.m_modelViewMatrix.length ∧
      ∃ m, s'.ModelViewMatrix = some m) ∧
    (∀ s : ScreenManager, s.m_modelViewMatrix.length = 1 → s.PopMatrix = s) := by
  refine ⟨rfl, ?_, ?_⟩
  · intro calls
    obtain ⟨s', hrun, hlen⟩ := ScreenManager.runCalls_length_pos calls
      (ScreenManager.new defaultMatrix) (le_refl _)
    have hne : s'.m_modelViewMatrix ≠ [] := by
      intro h0
      rw [h0] at hlen
      simp at hlen
    exact ⟨s', hrun, hlen, s'.m_modelViewMatrix.getLast hne, List.getLast?_eq_getLast _ hne⟩
  · intro s h
    unfold ScreenManager.PopMatrix
    rw [if_neg (by omega)]

/-- C14: on a stack that holds a matrix, `PushMatrix()` appends a copy of the
top matrix: the size grows by one, the new top is the old top and the earlier
entries are unchanged; and `PopMatrix()` straight after it restores the
previous state. -/
theorem ScreenManager.PushMatrix_copies_top (s : ScreenManager)
    (h : s.m_modelViewMatrix ≠ []) :
    ∃ s', s.PushMatrix = some s' ∧
      s'.m_modelViewMatrix.length = s.m_modelViewMatrix.length + 1 ∧
      s'.ModelViewMatrix = s.ModelViewMatrix ∧
      s'.m_modelViewMatrix.take s.m_modelViewMatrix.length = s.m_modelViewMatrix ∧
      s'.m_modelViewMatrix = s.m_modelViewMatrix ++ [s.m_modelViewMatrix.getLast h] ∧
      s'.PopMatrix = s ∧
      s'.PopMatrix.m_modelViewMatrix = s.m_modelViewMatrix := by
  have hpop : ({ s with m_modelViewMatrix :=
      s.m_modelViewMatrix ++ [s.m_modelViewMatrix.getLast h] } : ScreenManager).PopMatrix = s := by
    have hlen : 0 < s.m_modelViewMatrix.length := List.length_pos.mpr h
    unfold ScreenManager.PopMatrix
    simp only [List.length_append, List.length_singleton, List.dropLast_concat]
    rw [if_pos (by omega)]
  refine ⟨_, ScreenManager.PushMatrix_eq_of_ne_nil s h, ?_, ?_, ?_, rfl, hpop, ?_⟩
  · simp
  · simp only [ScreenManager.ModelViewMatrix]
    rw [List.getLast?_eq_getLast _ h, List.getLast?_eq_getLast _ (by simp)]
    simp
  · simp
  · rw [hpop]

/-- The stack of the example screen manager holds one matrix; `PushMatrix()`
succeeds on it and leaves two. -/
theorem ScreenManager.PushMatrix_copies_top_witness :
    exampleScreen.m_modelViewMatrix ≠ [] ∧
    ∃ s', exampleScreen.PushMatrix = some s' ∧ s'.m_modelViewMatrix.length = 2 ∧
      s'.PopMatrix = exampleScreen :=
  ⟨by simp [exampleScreen, ScreenManager.new],
    (ScreenManager.PushMatrix_copies_top exampleScreen
      (by simp [exampleScreen, ScreenManager.new])).imp
      fun _ h => ⟨h.1, h.2.1, h.2.2.2.2.2.1⟩⟩

/-! ## ScreenManager: the projections -/

/-- The entries of the projection matrix that `Set2DScreen` leaves, index by
index: the fifth and the thirteenth depend on the screen origin. -/
theorem ScreenManager.Set2DScreen_entries (s : ScreenManager) (o : ScreenOrigin2D)
    (i : Fin 16) :
    (s.Set2DScreen o).m_projectionMatrix i =
      if i = 0 then 2 / (s.m_width : ℚ)
      else if i = 5 then
        (if o = ScreenOrigin2D.TOP_LEFT then -2 / (s.m_height : ℚ) else 2 / (s.m_height : ℚ))
      else if i = 10 then -1
      else if i = 12 then -1
      else if i = 13 then (if o = ScreenOrigin2D.TOP_LEFT then 1 else -1)
      else if i = 14 then 0
      else if i = 15 then 1
      else 0 := by
  cases o <;> fin_cases i <;>
    simp [ScreenManager.Set2DScreen, Matrix4D.set, Matrix4D.IDENTITY, Function.update,
      neg_div, div_neg]

/-- C15: for a stored width `> 0` and height `> 0`, `Set2DScreen` produces the
`glOrtho` matrix with near `−1` and far `1`: for `TOP_LEFT` it is
`glOrtho(0, width, height, 0, −1, 1)`, with `[0] = 2/width`, `[5] = −2/height`,
`[10] = −1`, `[12] = −1`, `[13] = 1`, `[14] = 0`, `[15] = 1` and the identity
elsewhere; for `BOTTOM_LEFT` it is `glOrtho(0, width, 0, height, −1, 1)`, the
same with `[5] = 2/height` and `[13] = −1`. -/
theorem ScreenManager.Set2DScreen_eq_glOrtho (s : ScreenManager)
    (hw : 0 < s.m_width) (hh : 0 < s.m_height) :
    ((s.Set2DScreen ScreenOrigin2D.TOP_LEFT).m_projectionMatrix =
        glOrtho 0 s.m_width s.m_height 0 (-1) 1 ∧
      (s.Set2DScreen ScreenOrigin2D.TOP_LEFT).m_projectionMatrix 0 = 2 / (s.m_width : ℚ) ∧
      (s.Set2DScreen ScreenOrigin2D.TOP_LEFT).m_projectionMatrix 5 = -2 / (s.m_height : ℚ) ∧
      (s.Set2DScreen ScreenOrigin2D.TOP_LEFT).m_projectionMatrix 10 = -1 ∧
      (s.Set2DScreen ScreenOrigin2D.TOP_LEFT).m_projectionMatrix 12 = -1 ∧
      (s.Set2DScreen ScreenOrigin2D.TOP_LEFT).m_projectionMatrix 13 = 1 ∧
      (s.Set2DScreen ScreenOrigin2D.TOP_LEFT).m_projectionMatrix 14 = 0 ∧
      (s.Set2DScreen ScreenOrigin2D.TOP_LEFT).m_projectionMatrix 15 = 1) ∧
    ((s.Set2DScreen ScreenOrigin2D.BOTTOM_LEFT).m_projectionMatrix =
        glOrtho 0 s.m_width 0 s.m_height (-1) 1 ∧
      (s.Set2DScreen ScreenOrigin2D.BOTTOM_LEFT).m_projectionMatrix 0 = 2 / (s.m_width : ℚ) ∧
      (s.Set2DScreen ScreenOrigin2D.BOTTOM_LEFT).m_projectionMatrix 5 = 2 / (s.m_height : ℚ) ∧
      (s.Set2DScreen ScreenOrigin2D.BOTTOM_LEFT).m_projectionMatrix 10 = -1 ∧
      (s.Set2DScreen ScreenOrigin2D.BOTTOM_LEFT).m_projectionMatrix 12 = -1 ∧
      (s.Set2DScreen ScreenOrigin2D.BOTTOM_LEFT).m_projectionMatrix 13 = -1 ∧
      (s.Set2DScreen ScreenOrigin2D.BOTTOM_LEFT).m_projectionMatrix 14 = 0 ∧
      (s.Set2DScreen ScreenOrigin2D.BOTTOM_LEFT).m_projectionMatrix 15 = 1) ∧
    (∀ (o : ScreenOrigin2D) (i : Fin 16),
      i ≠ 0 → i ≠ 5 → i ≠ 10 → i ≠ 12 → i ≠ 13 → i ≠ 14 → i ≠ 15 →
      (s.Set2DScreen o).m_projectionMatrix i = Matrix4D.IDENTITY i) := by
  have hw' : (s.m_width : ℚ) ≠ 0 := by exact_mod_cast hw.ne'
  have hh' : (s.m_height : ℚ) ≠ 0 := by exact_mod_cast hh.ne'
  have top : (s.Set2DScreen ScreenOrigin2D.TOP_LEFT).m_projectionMatrix =
      glOrtho 0 s.m_width s.m_height 0 (-1) 1 := by
    funext i
    rw [ScreenManager.Set2DScreen_entries]
    fin_cases i <;> simp [glOrtho, hw', hh', neg_div, div_neg]
    norm_num
  have bottom : (s.Set2DScreen ScreenOrigin2D.BOTTOM_LEFT).m_projectionMatrix =
      glOrtho 0 s.m_width 0 s.m_height (-1) 1 := by
    funext i
    rw [ScreenManager.Set2DScreen_entries]
    fin_cases i <;> simp [glOrtho, hw', hh', neg_div, div_neg]
    norm_num
  have rest : ∀ (o : ScreenOrigin2D) (i : Fin 16),
      i ≠ 0 → i ≠ 5 → i ≠ 10 → i ≠ 12 → i ≠ 13 → i ≠ 14 → i ≠ 15 →
      (s.Set2DScreen o).m_projectionMatrix i = Matrix4D.IDENTITY i := by
    intro o i h0 h5 h10 h12 h13 h14 h15
    rw [ScreenManager.Set2DScreen_entries]
    simp [h0, h5, h10, h12, h13, h14, h15, Matrix4D.IDENTITY]
  refine ⟨⟨top, ?_, ?_, ?_, ?_, ?_, ?_, ?_⟩, ⟨bottom, ?_, ?_, ?_, ?_, ?_, ?_, ?_⟩, rest⟩ <;>
    (rw [ScreenManager.Set2DScreen_entries]; simp)

/-- The `1024 × 768` screen with the origin at the top left: entry `[0]` is
`2/1024` and entry `[5]` is `−2/768`. -/
theorem ScreenManager.Set2DScreen_eq_glOrtho_witness :
    (0 < exampleScreen.m_width ∧ 0 < exampleScreen.m_height) ∧
    (exampleScreen.Set2DScreen ScreenOrigin2D.TOP_LEFT).m_projectionMatrix 0 = 1 / 512 ∧
    (exampleScreen.Set2DScreen ScreenOrigin2D.TOP_LEFT).m_projectionMatrix 5 = -1 / 384 := by
  have h := ScreenManager.Set2DScreen_eq_glOrtho exampleScreen (by decide) (by decide)
  refine ⟨⟨by decide, by decide⟩, ?_, ?_⟩
  · rw [h.1.2.1]
    norm_num [exampleScreen]
  · rw [h.1.2.2.1]
    norm_num [exampleScreen]

/-- For a positive width and height the divisor `aspectRatio` of `Set3DScreen`
is the integer quotient of the width by the height. -/
theorem ScreenManager.aspectRatio_eq_floor (s : ScreenManager)
    (hw : 0 < s.m_width) (hh : 0 < s.m_height) :
    s.aspectRatio = ((s.m_width / s.m_height : ℤ) : ℚ) := by
  unfold ScreenManager.aspectRatio
  rw [Int.tdiv_eq_ediv hw.le hh.le]

/-- C16 (what the code does): for the stored size `1024 × 768` the aspect ratio
that `Set3DScreen` divides by is `1`, the quotient of the two `int`s, and not
`4/3`: entry `[0]` is `formula / 1`. The entries `[10]`, `[11]`, `[14]` and
`[15]` are `(far+near)/(near−far)`, `−1`, `2·far·near/(near−far)` and `0`. -/
theorem ScreenManager.Set3DScreen_aspectRatio_truncated :
    exampleScreen.aspectRatio = 1 ∧
    exampleScreen.aspectRatio ≠ (1024 : ℚ) / 768 ∧
    (1024 : ℚ) / 768 = 4 / 3 ∧
    (∀ (tan : ℚ → ℚ) (fieldOfView nearClip farClip : ℚ), ∃ s',
      ScreenManager.Set3DScreen tan exampleScreen fieldOfView nearClip farClip = some s' ∧
      s'.m_projectionMatrix 0 = ScreenManager.perspectiveFormula tan fieldOfView / 1 ∧
      s'.m_projectionMatrix 10 = (farClip + nearClip) / (nearClip - farClip) ∧
      s'.m_projectionMatrix 11 = -1 ∧
      s'.m_projectionMatrix 14 = 2 * farClip * nearClip / (nearClip - farClip) ∧
      s'.m_projectionMatrix 15 = 0) := by
  have h1 : exampleScreen.aspectRatio = 1 := by
    have hq : Int.tdiv exampleScreen.m_width exampleScreen.m_height = 1 := by decide
    unfold ScreenManager.aspectRatio
    rw [hq]
    norm_num
  refine ⟨h1, ?_, by norm_num, ?_⟩
  · rw [h1]
    norm_num
  · intro tan fieldOfView nearClip farClip
    have hh : exampleScreen.m_height ≠ 0 := by decide
    simp only [ScreenManager.Set3DScreen, if_neg hh, Option.some.injEq, exists_eq_left']
    refine ⟨?_, ?_, ?_, ?_, ?_⟩
    · simp [Matrix4D.set, Function.update, h1]
    · simp [Matrix4D.set, Function.update]
    · simp [Matrix4D.set, Function.update]
    · simp [Matrix4D.set, Function.update]
    · simp [Matrix4D.set, Function.update]

/-! ## ShaderManager: Destroy -/

/-- When no entry has the key, the `CUSTOM_SHADER` loop changes nothing and
deletes nothing. -/
theorem ShaderManager.destroyLoop_custom_of_not_mem (k : String) (m : ShaderIDMap)
    (h : k ∉ m.map Prod.fst) :
    ShaderManager.destroyLoop RemoveType.CUSTOM_SHADER k m = (m, []) := by
  induction m with
  | nil => rfl
  | cons e rest ih =>
    obtain ⟨first, second⟩ := e
    simp only [List.map_cons, List.mem_cons, not_or] at h
    have hne : first ≠ k := fun h0 => h.1 h0.symm
    simp only [ShaderManager.destroyLoop, if_true, if_neg hne, ih h.2]

/-- Filtering out a key that no entry has changes nothing. -/
theorem ShaderManager.filter_key_of_not_mem (k : String) (m : ShaderIDMap)
    (h : k ∉ m.map Prod.fst) : m.filter (fun e => decide (e.1 ≠ k)) = m := by
  rw [List.filter_eq_self]
  intro e he
  have : e.1 ≠ k := fun h0 => h (h0 ▸ List.mem_map_of_mem Prod.fst he)
  simpa using this

/-- On a map with distinct keys the `CUSTOM_SHADER` loop leaves the entries
whose key is not `k`. -/
theorem ShaderManager.destroyLoop_custom_fst (k : String) (m : ShaderIDMap)
    (hnd : (m.map Prod.fst).Nodup) :
    (ShaderManager.destroyLoop RemoveType.CUSTOM_SHADER k m).1 =
      m.filter (fun e => decide (e.1 ≠ k)) := by
  induction m with
  | nil => rfl
  | cons e rest ih =>
    obtain ⟨first, second⟩ := e
    simp only [List.map_cons, List.nodup_cons] at hnd
    by_cases hk : first = k
    · subst hk
      simp only [ShaderManager.destroyLoop, if_true, List.filter_cons, ne_eq, not_true_eq_false,
        decide_False, Bool.false_eq_true, if_false]
      exact (ShaderManager.filter_key_of_not_mem first rest hnd.1).symm
    · have hf : List.filter (fun e : String × ℕ => decide (e.1 ≠ k)) ((first, second) :: rest) =
          (first, second) :: List.filter (fun e => decide (e.1 ≠ k)) rest := by
        simp [List.filter_cons, hk]
      rw [hf, ← ih hnd.2]
      simp only [ShaderManager.destroyLoop, if_true, if_neg hk]

/-- On a map with distinct keys the `CUSTOM_SHADER` loop deletes the ID stored
under `k`, once. -/
theorem ShaderManager.destroyLoop_custom_snd (k : String) (id : ℕ) (m : ShaderIDMap)
    (hnd : (m.map Prod.fst).Nodup) (hmem : (k, id) ∈ m) :
    (ShaderManager.destroyLoop RemoveType.CUSTOM_SHADER k m).2 = [id] := by
  induction m with
  | nil => simp at hmem
  | cons e rest ih =>
    obtain ⟨first, second⟩ := e
    simp only [List.map_cons, List.nodup_cons] at hnd
    by_cases hk : first = k
    · subst hk
      simp only [ShaderManager.destroyLoop, if_true]
      rcases List.mem_cons.mp hmem with h | h
      · simp only [Prod.mk.injEq, true_and] at h
        rw [h]
      · exact absurd (List.mem_map_of_mem Prod.fst h) hnd.1
    · simp only [ShaderManager.destroyLoop, if_true, if_neg hk]
      rcases List.mem_cons.mp hmem with h | h
      · simp only [Prod.mk.injEq] at h
        exact absurd h.1.symm hk
      · exact ih hnd.2 h

/-- The `ALL_SHADERS` loop erases nothing and deletes the ID of every entry, in
order. -/
theorem ShaderManager.destroyLoop_all (k : String) (m : ShaderIDMap) :
    ShaderManager.destroyLoop RemoveType.ALL_SHADERS k m = (m, m.map Prod.snd) := by
  induction m with
  | nil => rfl
  | cons e rest ih =>
    obtain ⟨first, second⟩ := e
    simp [ShaderManager.destroyLoop, ih]

/-- A write to the map of one shader type is read back, and leaves the maps of
the other types as they were. -/
theorem ShaderManager.getMap_setMap (sm : ShaderManager) (t t' : ShaderType) (m : ShaderIDMap) :
    (sm.setMap t m).getMap t' = if t' = t then m else sm.getMap t' := by
  cases t <;> cases t' <;> rfl

/-- C17: on maps with distinct keys, `Destroy(type, CUSTOM_SHADER, k)` removes
exactly the entry with the key `k` from the map that `type` selects, deleting
its ID, and leaves that map unchanged when `k` is absent;
`Destroy(type, ALL_SHADERS, _)` deletes the ID of every entry once and leaves the
selected map empty; in both cases the maps of the two other shader types are
unchanged. -/
theorem ShaderManager.Destroy_selected_map (sm : ShaderManager) (t : ShaderType) (k : String)
    (hnd : ((sm.getMap t).map Prod.fst).Nodup) :
    ((sm.Destroy t RemoveType.CUSTOM_SHADER k).1.getMap t =
        (sm.getMap t).filter (fun e => decide (e.1 ≠ k)) ∧
      (∀ e, e ∈ (sm.Destroy t RemoveType.CUSTOM_SHADER k).1.getMap t ↔
        e ∈ sm.getMap t ∧ e.1 ≠ k) ∧
      (∀ id, (k, id) ∈ sm.getMap t → (sm.Destroy t RemoveType.CUSTOM_SHADER k).2 = [id]) ∧
      (k ∉ (sm.getMap t).map Prod.fst →
        (sm.Destroy t RemoveType.CUSTOM_SHADER k).1.getMap t = sm.getMap t ∧
        (sm.Destroy t RemoveType.CUSTOM_SHADER k).2 = [])) ∧
    ((sm.Destroy t RemoveType.ALL_SHADERS k).1.getMap t = [] ∧
      (sm.Destroy t RemoveType.ALL_SHADERS k).2 = (sm.getMap t).map Prod.snd) ∧
    (∀ (removeType : RemoveType) (t' : ShaderType), t' ≠ t →
      (sm.Destroy t removeType k).1.getMap t' = sm.getMap t') := by
  have hcustom : (sm.Destroy t RemoveType.CUSTOM_SHADER k).1.getMap t =
      (sm.getMap t).filter (fun e => decide (e.1 ≠ k)) := by
    simp only [ShaderManager.Destroy, ShaderManager.getMap_setMap, if_true]
    rw [if_neg (by decide)]
    exact ShaderManager.destroyLoop_custom_fst k _ hnd
  refine ⟨⟨hcustom, ?_, ?_, ?_⟩, ⟨?_, ?_⟩, ?_⟩
  · intro e
    rw [hcustom, List.mem_filter]
    simp
  · intro id hmem
    exact ShaderManager.destroyLoop_custom_snd k id _ hnd hmem
  · intro habs
    constructor
    · rw [hcustom]
      exact ShaderManager.filter_key_of_not_mem k _ habs
    · simp only [ShaderManager.Destroy, ShaderManager.destroyLoop_custom_of_not_mem k _ habs]
  · simp only [ShaderManager.Destroy, ShaderManager.getMap_setMap, if_true]
  · simp only [ShaderManager.Destroy, ShaderManager.destroyLoop_all]
  · intro removeType t' hne
    simp only [ShaderManager.Destroy, ShaderManager.getMap_setMap, if_neg hne]

/-- Destroying the vertex shader `"a"` of the example manager deletes the ID `2`
and leaves the vertex shader `"b"`; the fragment map keeps its entry. -/
theorem ShaderManager.Destroy_selected_map_witness :
    ((exampleShaders.getMap ShaderType.VERTEX_SHADER).map Prod.fst).Nodup ∧
    (exampleShaders.Destroy ShaderType.VERTEX_SHADER RemoveType.CUSTOM_SHADER "a").2 = [2] ∧
    (exampleShaders.Destroy ShaderType.VERTEX_SHADER RemoveType.CUSTOM_SHADER "a").1.getMap
      ShaderType.FRAGMENT_SHADER = [("a", 4)] :=
  ⟨by decide,
    (ShaderManager.Destroy_selected_map exampleShaders ShaderType.VERTEX_SHADER "a"
      (by decide)).1.2.2.1 2 (by decide),
    (ShaderManager.Destroy_selected_map exampleShaders ShaderType.VERTEX_SHADER "a"
      (by decide)).2.2 RemoveType.CUSTOM_SHADER ShaderType.FRAGMENT_SHADER (by decide)⟩

/-! ## Plane2D: the points of the plane -/

/-- In exact arithmetic, after `Update()`, for every position and rotation, the
position of the plane and the two endpoints `point1 = position − 10000·rightAxis`
and `point2 = position + 10000·rightAxis` satisfy
`normal · p − distanceFromOrigin = 0`, so `SideOfPlane` classifies each of the
three as `ON_PLANE`; and the midpoint of `point1` and `point2` is the position. -/
theorem Plane2D.Update_points_on_plane_exact (p : Plane2D) :
    (p.Update.m_point_1 = p.m_position.Convert2D.sub (p.rotatedRightAxis.mulScalar 10000) ∧
      p.Update.m_point_2 = p.m_position.Convert2D.add (p.rotatedRightAxis.mulScalar 10000)) ∧
    (p.Update.m_normal.DotProduct p.Update.m_position.Convert2D -
        p.Update.m_distanceFromOrigin = 0 ∧
      p.Update.m_normal.DotProduct p.Update.m_point_1 - p.Update.m_distanceFromOrigin = 0 ∧
      p.Update.m_normal.DotProduct p.Update.m_point_2 - p.Update.m_distanceFromOrigin = 0) ∧
    (p.Update.SideOfPlane p.Update.m_position.Convert2D.X p.Update.m_position.Convert2D.Y =
        PlaneSide.ON_PLANE ∧
      p.Update.SideOfPlane p.Update.m_point_1.X p.Update.m_point_1.Y = PlaneSide.ON_PLANE ∧
      p.Update.SideOfPlane p.Update.m_point_2.X p.Update.m_point_2.Y = PlaneSide.ON_PLANE) ∧
    (p.Update.m_point_1.add p.Update.m_point_2).divScalar 2 = p.Update.m_position.Convert2D := by
  have h0 : p.Update.m_normal.DotProduct p.Update.m_position.Convert2D -
      p.Update.m_distanceFromOrigin = 0 := by
    simp only [Plane2D.Update, Vector2D.DotProduct, Vector3D.Convert2D]
    ring
  have h1 : p.Update.m_normal.DotProduct p.Update.m_point_1 -
      p.Update.m_distanceFromOrigin = 0 := by
    simp only [Plane2D.Update, Vector2D.DotProduct, Vector3D.Convert2D, Vector2D.sub,
      Vector2D.mulScalar]
    ring
  have h2 : p.Update.m_normal.DotProduct p.Update.m_point_2 -
      p.Update.m_distanceFromOrigin = 0 := by
    simp only [Plane2D.Update, Vector2D.DotProduct, Vector3D.Convert2D, Vector2D.add,
      Vector2D.mulScalar]
    ring
  have hside : ∀ q : Vector2D, p.Update.m_normal.DotProduct q - p.Update.m_distanceFromOrigin = 0 →
      p.Update.SideOfPlane q.X q.Y = PlaneSide.ON_PLANE := by
    intro q hq
    have hq' : p.Update.m_normal.DotProduct ⟨q.X, q.Y⟩ - p.Update.m_distanceFromOrigin = 0 := hq
    unfold Plane2D.SideOfPlane
    simp only [hq', gt_iff_lt, lt_self_iff_false, if_false]
  refine ⟨⟨rfl, rfl⟩, ⟨h0, h1, h2⟩, ⟨hside _ h0, hside _ h1, hside _ h2⟩, ?_⟩
  simp only [Plane2D.Update, Vector2D.add, Vector2D.sub, Vector2D.mulScalar, Vector2D.divScalar,
    Vector3D.Convert2D, Vector2D.mk.injEq]
  constructor <;> ring

/-! ## Rounded arithmetic: the rounding function -/

/-- A rational within less than a half of an integer rounds to that integer. -/
theorem roundHalfEven_of_near (t : ℚ) (m : ℤ) (h1 : (m : ℚ) - 1 / 2 < t)
    (h2 : t < (m : ℚ) + 1 / 2) : roundHalfEven t = m := by
  unfold roundHalfEven
  by_cases hm : (m : ℚ) ≤ t
  · have hf : ⌊t⌋ = m := by
      rw [Int.floor_eq_iff]
      exact ⟨hm, by linarith⟩
    simp only [hf]
    rw [if_pos (by linarith)]
  · have hf : ⌊t⌋ = m - 1 := by
      rw [Int.floor_eq_iff]
      push_cast
      exact ⟨by linarith, by linarith⟩
    simp only [hf]
    push_cast
    rw [if_neg (by linarith), if_pos (by linarith)]
    ring

/-- The binary exponent of a rational between two consecutive powers of two. -/
theorem log_two_eq_of_bounds (a : ℚ) (e : ℤ) (h1 : (2 : ℚ) ^ e ≤ a)
    (h2 : a < (2 : ℚ) ^ (e + 1)) : Int.log 2 a = e := by
  have hpos : 0 < a := lt_of_lt_of_le (by positivity) h1
  have hle : e ≤ Int.log 2 a :=
    (Int.zpow_le_iff_le_log (by norm_num) hpos).mp (by exact_mod_cast h1)
  have hlt : Int.log 2 a < e + 1 :=
    (Int.lt_zpow_iff_log_lt (by norm_num) hpos).mp (by exact_mod_cast h2)
  omega

/-- Zero is a binary32 value. -/
theorem roundBinary32_zero : roundBinary32 0 = 0 := by
  simp [roundBinary32]

/-- Rounding to binary32 commutes with negation. -/
theorem roundBinary32_neg (x : ℚ) : roundBinary32 (-x) = -roundBinary32 x := by
  unfold roundBinary32
  rcases lt_trichotomy x 0 with h | h | h
  · have h1 : ¬ (-x < 0) := by linarith
    simp only [neg_eq_zero, h.ne, if_false, abs_neg, h, if_true, h1, neg_neg]
  · simp [h]
  · have h1 : -x < 0 := by linarith
    have h2 : ¬ (x < 0) := by linarith
    simp only [neg_eq_zero, h.ne', if_false, abs_neg, h1, if_true, h2]

/-- The binary32 rounding of a positive rational `x` in the binade of exponent
`e`, when `x` is within less than half a spacing of `m` spacings. -/
theorem roundBinary32_eq_of_pos (x y : ℚ) (e m : ℤ) (he : -126 ≤ e)
    (h1 : (2 : ℚ) ^ e ≤ x) (h2 : x < (2 : ℚ) ^ (e + 1))
    (h3 : (m : ℚ) - 1 / 2 < x / (2 : ℚ) ^ (e - 23))
    (h4 : x / (2 : ℚ) ^ (e - 23) < (m : ℚ) + 1 / 2)
    (hy : y = (m : ℚ) * (2 : ℚ) ^ (e - 23)) : roundBinary32 x = y := by
  have hpos : 0 < x := lt_of_lt_of_le (by positivity) h1
  unfold roundBinary32
  rw [if_neg hpos.ne']
  simp only [abs_of_pos hpos, log_two_eq_of_bounds x e h1 h2, max_eq_left he,
    roundHalfEven_of_near _ m h3 h4, if_neg (not_lt.mpr hpos.le), hy]

/-- The binary32 rounding of a negative rational, from that of its negation. -/
theorem roundBinary32_eq_of_neg (x y : ℚ) (h : roundBinary32 (-x) = -y) :
    roundBinary32 x = y := by
  have := roundBinary32_neg (-x)
  rw [neg_neg, h, neg_neg] at this
  exact this

/-! ## Rounded arithmetic: the routines of Plane2D -/

/-- A rounding fact transported along an equation of its argument. -/
theorem round_of_eq (fl : ℚ → ℚ) {x x' y : ℚ} (hx : x = x') (h : fl x' = y) : fl x = y := by
  rw [hx]
  exact h

/-- With the identity as rounding function the rounded routines are the exact
ones. -/
theorem Plane2D.UpdateRounded_id (p : Plane2D) (x y : ℚ) :
    p.UpdateRounded (fun v => v) = p.Update ∧
    p.SideOfPlaneRounded (fun v => v) x y = p.SideOfPlane x y :=
  ⟨rfl, rfl⟩

/-- The distance from the origin that the rounded `Update` stores, from the
results of its three operations. -/
theorem Plane2D.UpdateRounded_distanceFromOrigin_of_steps (fl : ℚ → ℚ) (p : Plane2D)
    (a b s : ℚ) (ha : fl (-p.rotatedRightAxis.Y * p.m_position.X) = a)
    (hb : fl (p.rotatedRightAxis.X * p.m_position.Y) = b) (hs : fl (a + b) = s) :
    (p.UpdateRounded fl).m_distanceFromOrigin = s := by
  subst ha hb hs
  rfl

/-- The endpoints that the rounded `Update` stores, from the results of its six
operations. -/
theorem Plane2D.UpdateRounded_points_of_steps (fl : ℚ → ℚ) (p : Plane2D)
    (rx ry x1 y1 x2 y2 : ℚ) (hrx : fl (p.rotatedRightAxis.X * 10000) = rx)
    (hry : fl (p.rotatedRightAxis.Y * 10000) = ry)
    (hx1 : fl (p.m_position.X - rx) = x1) (hy1 : fl (p.m_position.Y - ry) = y1)
    (hx2 : fl (p.m_position.X + rx) = x2) (hy2 : fl (p.m_position.Y + ry) = y2) :
    (p.UpdateRounded fl).m_point_1 = ⟨x1, y1⟩ ∧ (p.UpdateRounded fl).m_point_2 = ⟨x2, y2⟩ := by
  subst hrx hry hx1 hy1 hx2 hy2
  exact ⟨rfl, rfl⟩

/-- The signed distance that the rounded `SideOfPlane` computes, from the
results of its four operations. -/
theorem Plane2D.distanceFromPlaneRounded_of_steps (fl : ℚ → ℚ) (p : Plane2D)
    (x y a b s v : ℚ) (ha : fl (p.m_normal.X * x) = a) (hb : fl (p.m_normal.Y * y) = b)
    (hs : fl (a + b) = s) (hv : fl (s - p.m_distanceFromOrigin) = v) :
    p.distanceFromPlaneRounded fl x y = v := by
  subst ha hb hs hv
  rfl

/-- The side that the rounded `SideOfPlane` returns, from the sign of the signed
distance it computes. -/
theorem Plane2D.SideOfPlaneRounded_of_distance (fl : ℚ → ℚ) (p : Plane2D) (x y : ℚ) :
    (0 < p.distanceFromPlaneRounded fl x y →
      p.SideOfPlaneRounded fl x y = PlaneSide.POSITIVE_SIDE) ∧
    (p.distanceFromPlaneRounded fl x y < 0 →
      p.SideOfPlaneRounded fl x y = PlaneSide.NEGATIVE_SIDE) ∧
    (p.distanceFromPlaneRounded fl x y = 0 →
      p.SideOfPlaneRounded fl x y = PlaneSide.ON_PLANE) := by
  unfold Plane2D.SideOfPlaneRounded
  refine ⟨fun h => ?_, fun h => ?_, fun h => ?_⟩
  · simp only [gt_iff_lt, h, if_true]
  · simp only [gt_iff_lt, not_lt.mpr h.le, h, if_false, if_true]
  · simp only [gt_iff_lt, h, lt_self_iff_false, if_false]

/-- The `float` plane at `(1, 2)` with right axis `(0.6f, 0.8f)`: the normal that
`Update` stores. -/
theorem roundedPlane_normal :
    (roundedPlane.UpdateRounded roundBinary32).m_normal = ⟨-13421773 / 16777216, 10066330 / 16777216⟩ := by
  simp only [Plane2D.UpdateRounded, roundedPlane, Vector2D.mk.injEq]
  constructor <;> norm_num

/-- The `float` plane at `(1, 2)` with right axis `(0.6f, 0.8f)`: the distance from
the origin that `Update` stores, `6710887 / 2^24`; none of the three operations
rounds. -/
theorem roundedPlane_distanceFromOrigin :
    (roundedPlane.UpdateRounded roundBinary32).m_distanceFromOrigin = 6710887 / 16777216 := by
  have hda : roundBinary32 (-13421773 / 16777216) = -13421773 / 16777216 :=
    roundBinary32_eq_of_neg _ _
      (roundBinary32_eq_of_pos _ _ (-1) 13421773 (by norm_num) (by norm_num) (by norm_num)
      (by norm_num) (by norm_num) (by norm_num))
  have hdb : roundBinary32 (5033165 / 4194304) = 5033165 / 4194304 :=
    roundBinary32_eq_of_pos _ _ 0 10066330 (by norm_num) (by norm_num) (by norm_num)
      (by norm_num) (by norm_num) (by norm_num)
  have hds : roundBinary32 (6710887 / 16777216) = 6710887 / 16777216 :=
    roundBinary32_eq_of_pos _ _ (-2) 13421774 (by norm_num) (by norm_num) (by norm_num)
      (by norm_num) (by norm_num) (by norm_num)
  exact Plane2D.UpdateRounded_distanceFromOrigin_of_steps roundBinary32 roundedPlane _ _ _
    (round_of_eq roundBinary32 (by norm_num [roundedPlane, Plane2D.rotatedRightAxis]) hda)
    (round_of_eq roundBinary32 (by norm_num [roundedPlane, Plane2D.rotatedRightAxis]) hdb)
    (round_of_eq roundBinary32 (by norm_num) hds)

/-- The `float` plane at `(1, 2)` with right axis `(0.6f, 0.8f)`: the products
`0.6f * 10000` and `0.8f * 10000` round to `6000` and `8000`, so the endpoints
that `Update` stores are `(-5999, -7998)` and `(6001, 8002)`. -/
theorem roundedPlane_points :
    (roundedPlane.UpdateRounded roundBinary32).m_point_1 = ⟨-5999, -7998⟩ ∧
    (roundedPlane.UpdateRounded roundBinary32).m_point_2 = ⟨6001, 8002⟩ := by
  have hrx : roundBinary32 (3145728125 / 524288) = 6000 :=
    roundBinary32_eq_of_pos _ _ 12 12288000 (by norm_num) (by norm_num) (by norm_num)
      (by norm_num) (by norm_num) (by norm_num)
  have hry : roundBinary32 (8388608125 / 1048576) = 8000 :=
    roundBinary32_eq_of_pos _ _ 12 16384000 (by norm_num) (by norm_num) (by norm_num)
      (by norm_num) (by norm_num) (by norm_num)
  have h1x : roundBinary32 (-5999) = -5999 :=
    roundBinary32_eq_of_neg _ _
      (roundBinary32_eq_of_pos _ _ 12 12285952 (by norm_num) (by norm_num) (by norm_num)
      (by norm_num) (by norm_num) (by norm_num))
  have h1y : roundBinary32 (-7998) = -7998 :=
    roundBinary32_eq_of_neg _ _
      (roundBinary32_eq_of_pos _ _ 12 16379904 (by norm_num) (by norm_num) (by norm_num)
      (by norm_num) (by norm_num) (by norm_num))
  have h2x : roundBinary32 (6001) = 6001 :=
    roundBinary32_eq_of_pos _ _ 12 12290048 (by norm_num) (by norm_num) (by norm_num)
      (by norm_num) (by norm_num) (by norm_num)
  have h2y : roundBinary32 (8002) = 8002 :=
    roundBinary32_eq_of_pos _ _ 12 16388096 (by norm_num) (by norm_num) (by norm_num)
      (by norm_num) (by norm_num) (by norm_num)
  exact Plane2D.UpdateRounded_points_of_steps roundBinary32 roundedPlane _ _ _ _ _ _
    (round_of_eq roundBinary32 (by norm_num [roundedPlane, Plane2D.rotatedRightAxis]) hrx)
    (round_of_eq roundBinary32 (by norm_num [roundedPlane, Plane2D.rotatedRightAxis]) hry)
    (round_of_eq roundBinary32 (by norm_num [roundedPlane]) h1x)
    (round_of_eq roundBinary32 (by norm_num [roundedPlane]) h1y)
    (round_of_eq roundBinary32 (by norm_num [roundedPlane]) h2x)
    (round_of_eq roundBinary32 (by norm_num [roundedPlane]) h2y)

/-- The `float` plane at `(1, 2)` with right axis `(0.6f, 0.8f)`: the signed
distance that `SideOfPlane` computes for the endpoint `(-5999, -7998)` is
`-1639 / 16777216`. -/
theorem roundedPlane_distance_point_1 :
    (roundedPlane.UpdateRounded roundBinary32).distanceFromPlaneRounded roundBinary32 (-5999) (-7998) =
      -1639 / 16777216 := by
  have ha : roundBinary32 (80517216227 / 16777216) = 4914381 / 1024 :=
    roundBinary32_eq_of_pos _ _ 12 9828762 (by norm_num) (by norm_num) (by norm_num)
      (by norm_num) (by norm_num) (by norm_num)
  have hb : roundBinary32 (-20127626835 / 4194304) = -9827943 / 2048 :=
    roundBinary32_eq_of_neg _ _
      (roundBinary32_eq_of_pos _ _ 12 9827943 (by norm_num) (by norm_num) (by norm_num)
      (by norm_num) (by norm_num) (by norm_num))
  have hs : roundBinary32 (819 / 2048) = 819 / 2048 :=
    roundBinary32_eq_of_pos _ _ (-2) 13418496 (by norm_num) (by norm_num) (by norm_num)
      (by norm_num) (by norm_num) (by norm_num)
  have hv : roundBinary32 (-1639 / 16777216) = -1639 / 16777216 :=
    roundBinary32_eq_of_neg _ _
      (roundBinary32_eq_of_pos _ _ (-14) 13426688 (by norm_num) (by norm_num) (by norm_num)
      (by norm_num) (by norm_num) (by norm_num))
  exact Plane2D.distanceFromPlaneRounded_of_steps roundBinary32 _ _ _ _ _ _ _
    (round_of_eq roundBinary32 (by norm_num [roundedPlane_normal]) ha)
    (round_of_eq roundBinary32 (by norm_num [roundedPlane_normal]) hb)
    (round_of_eq roundBinary32 (by norm_num) hs)
    (round_of_eq roundBinary32 (by norm_num [roundedPlane_distanceFromOrigin]) hv)

/-- The `float` plane at `(1, 2)` with right axis `(0.6f, 0.8f)`: the signed
distance that `SideOfPlane` computes for the endpoint `(6001, 8002)` is
`-1639 / 16777216`. -/
theorem roundedPlane_distance_point_2 :
    (roundedPlane.UpdateRounded roundBinary32).distanceFromPlaneRounded roundBinary32 (6001) (8002) =
      -1639 / 16777216 := by
  have ha : roundBinary32 (-80544059773 / 16777216) = -9832039 / 2048 :=
    roundBinary32_eq_of_neg _ _
      (roundBinary32_eq_of_pos _ _ 12 9832039 (by norm_num) (by norm_num) (by norm_num)
      (by norm_num) (by norm_num) (by norm_num))
  have hb : roundBinary32 (20137693165 / 4194304) = 4916429 / 1024 :=
    roundBinary32_eq_of_pos _ _ 12 9832858 (by norm_num) (by norm_num) (by norm_num)
      (by norm_num) (by norm_num) (by norm_num)
  have hs : roundBinary32 (819 / 2048) = 819 / 2048 :=
    roundBinary32_eq_of_pos _ _ (-2) 13418496 (by norm_num) (by norm_num) (by norm_num)
      (by norm_num) (by norm_num) (by norm_num)
  have hv : roundBinary32 (-1639 / 16777216) = -1639 / 16777216 :=
    roundBinary32_eq_of_neg _ _
      (roundBinary32_eq_of_pos _ _ (-14) 13426688 (by norm_num) (by norm_num) (by norm_num)
      (by norm_num) (by norm_num) (by norm_num))
  exact Plane2D.distanceFromPlaneRounded_of_steps roundBinary32 _ _ _ _ _ _ _
    (round_of_eq roundBinary32 (by norm_num [roundedPlane_normal]) ha)
    (round_of_eq roundBinary32 (by norm_num [roundedPlane_normal]) hb)
    (round_of_eq roundBinary32 (by norm_num) hs)
    (round_of_eq roundBinary32 (by norm_num [roundedPlane_distanceFromOrigin]) hv)

/-- A list of exactly rounded values, extended by one. -/
theorem ExactOn.cons {fl : ℚ → ℚ} {a : ℚ} {l : List ℚ} (ha : fl a = a) (hl : ExactOn fl l) :
    ExactOn fl (a :: l) := by
  intro v hv
  rcases List.mem_cons.mp hv with h | h
  · rw [h]
    exact ha
  · exact hl v h

/-- The empty list of values. -/
theorem ExactOn.nil (fl : ℚ → ℚ) : ExactOn fl [] := by
  intro v hv
  simp at hv

/-- The normal and the position that the rounded `Update` leaves are those of
the exact `Update`; so is the distance from the origin when its three operations
do not round, and so are the endpoints when their six operations do not round. -/
theorem Plane2D.UpdateRounded_eq_of_exact (fl : ℚ → ℚ) (p : Plane2D) :
    (p.UpdateRounded fl).m_normal = p.Update.m_normal ∧
    (p.UpdateRounded fl).m_position = p.m_position ∧
    (ExactOn fl p.distanceOperands →
      (p.UpdateRounded fl).m_distanceFromOrigin = p.Update.m_distanceFromOrigin) ∧
    (ExactOn fl p.endpointOperands →
      (p.UpdateRounded fl).m_point_1 = p.Update.m_point_1 ∧
      (p.UpdateRounded fl).m_point_2 = p.Update.m_point_2) := by
  refine ⟨rfl, rfl, ?_, ?_⟩
  · intro h
    have ha := h (-p.rotatedRightAxis.Y * p.m_position.X) (by simp [Plane2D.distanceOperands])
    have hb := h (p.rotatedRightAxis.X * p.m_position.Y) (by simp [Plane2D.distanceOperands])
    have hs := h (-p.rotatedRightAxis.Y * p.m_position.X + p.rotatedRightAxis.X * p.m_position.Y)
      (by simp [Plane2D.distanceOperands])
    rw [Plane2D.UpdateRounded_distanceFromOrigin_of_steps fl p _ _ _ ha hb hs]
    rfl
  · intro h
    have hrx := h (p.rotatedRightAxis.X * 10000) (by simp [Plane2D.endpointOperands])
    have hry := h (p.rotatedRightAxis.Y * 10000) (by simp [Plane2D.endpointOperands])
    have hx1 := h (p.m_position.X - p.rotatedRightAxis.X * 10000)
      (by simp [Plane2D.endpointOperands])
    have hy1 := h (p.m_position.Y - p.rotatedRightAxis.Y * 10000)
      (by simp [Plane2D.endpointOperands])
    have hx2 := h (p.m_position.X + p.rotatedRightAxis.X * 10000)
      (by simp [Plane2D.endpointOperands])
    have hy2 := h (p.m_position.Y + p.rotatedRightAxis.Y * 10000)
      (by simp [Plane2D.endpointOperands])
    have hp := Plane2D.UpdateRounded_points_of_steps fl p _ _ _ _ _ _ hrx hry hx1 hy1 hx2 hy2
    rw [hp.1, hp.2]
    exact ⟨rfl, rfl⟩

/-- When the four operations of `SideOfPlane(x, y)` do not round, the signed
distance it computes is the exact one. -/
theorem Plane2D.distanceFromPlaneRounded_eq_of_exact (fl : ℚ → ℚ) (p : Plane2D) (x y : ℚ)
    (h : ExactOn fl (p.sideOperands x y)) :
    p.distanceFromPlaneRounded fl x y = p.signedDistance x y := by
  have ha := h (p.m_normal.X * x) (by simp [Plane2D.sideOperands])
  have hb := h (p.m_normal.Y * y) (by simp [Plane2D.sideOperands])
  have hs := h (p.m_normal.X * x + p.m_normal.Y * y) (by simp [Plane2D.sideOperands])
  have hv := h (p.m_normal.X * x + p.m_normal.Y * y - p.m_distanceFromOrigin)
    (by simp [Plane2D.sideOperands])
  rw [Plane2D.distanceFromPlaneRounded_of_steps fl p x y _ _ _ _ ha hb hs hv]
  rfl

/-- The rounded `SideOfPlane` puts the position of the plane on the plane after
the rounded `Update`, whatever the rounding function does away from zero: the
dot product is computed twice from the same operands. -/
theorem Plane2D.SideOfPlaneRounded_position (fl : ℚ → ℚ) (h0 : fl 0 = 0) (p : Plane2D) :
    (p.UpdateRounded fl).distanceFromPlaneRounded fl p.m_position.Convert2D.X
        p.m_position.Convert2D.Y = 0 ∧
    (p.UpdateRounded fl).SideOfPlaneRounded fl p.m_position.Convert2D.X
        p.m_position.Convert2D.Y = PlaneSide.ON_PLANE := by
  have hd : (p.UpdateRounded fl).distanceFromPlaneRounded fl p.m_position.Convert2D.X
      p.m_position.Convert2D.Y = 0 := by
    simp only [Plane2D.distanceFromPlaneRounded, Plane2D.UpdateRounded, sub_self, h0]
  exact ⟨hd, (Plane2D.SideOfPlaneRounded_of_distance fl _ _ _).2.2 hd⟩

/-! ## Rounded arithmetic: the quarter-turn plane -/

/-- A small integer is a binary32 value. -/
theorem roundBinary32_exact_1 : roundBinary32 1 = 1 :=
  roundBinary32_eq_of_pos _ _ 0 8388608 (by norm_num) (by norm_num) (by norm_num)
      (by norm_num) (by norm_num) (by norm_num)

/-- A small integer is a binary32 value. -/
theorem roundBinary32_exact_m1 : roundBinary32 (-1) = -1 :=
  roundBinary32_eq_of_neg _ _
      (roundBinary32_eq_of_pos _ _ 0 8388608 (by norm_num) (by norm_num) (by norm_num)
      (by norm_num) (by norm_num) (by norm_num))

/-- A small integer is a binary32 value. -/
theorem roundBinary32_exact_10000 : roundBinary32 10000 = 10000 :=
  roundBinary32_eq_of_pos _ _ 13 10240000 (by norm_num) (by norm_num) (by norm_num)
      (by norm_num) (by norm_num) (by norm_num)

/-- A small integer is a binary32 value. -/
theorem roundBinary32_exact_m9998 : roundBinary32 (-9998) = -9998 :=
  roundBinary32_eq_of_neg _ _
      (roundBinary32_eq_of_pos _ _ 13 10237952 (by norm_num) (by norm_num) (by norm_num)
      (by norm_num) (by norm_num) (by norm_num))

/-- A small integer is a binary32 value. -/
theorem roundBinary32_exact_10002 : roundBinary32 10002 = 10002 :=
  roundBinary32_eq_of_pos _ _ 13 10242048 (by norm_num) (by norm_num) (by norm_num)
      (by norm_num) (by norm_num) (by norm_num)

/-- The quarter-turn plane at `(1, 2)`: none of the six operations that compute
the endpoints rounds in binary32. -/
theorem examplePlane_endpointOperands_exact :
    ExactOn roundBinary32 examplePlane.endpointOperands := by
  have hl : examplePlane.endpointOperands = [0, 10000, 1, -9998, 1, 10002] := by
    norm_num [Plane2D.endpointOperands, examplePlane, Plane2D.rotatedRightAxis, Vector2D.RIGHT]
  rw [hl]
  exact ExactOn.cons roundBinary32_zero (ExactOn.cons roundBinary32_exact_10000
    (ExactOn.cons roundBinary32_exact_1 (ExactOn.cons roundBinary32_exact_m9998
    (ExactOn.cons roundBinary32_exact_1 (ExactOn.cons roundBinary32_exact_10002
    (ExactOn.nil _))))))

/-- The quarter-turn plane at `(1, 2)`: none of the three operations that
compute the distance from the origin rounds in binary32. -/
theorem examplePlane_distanceOperands_exact :
    ExactOn roundBinary32 examplePlane.distanceOperands := by
  have hl : examplePlane.distanceOperands = [-1, 0, -1] := by
    norm_num [Plane2D.distanceOperands, examplePlane, Plane2D.rotatedRightAxis, Vector2D.RIGHT]
  rw [hl]
  exact ExactOn.cons roundBinary32_exact_m1 (ExactOn.cons roundBinary32_zero
    (ExactOn.cons roundBinary32_exact_m1 (ExactOn.nil _)))

/-- The quarter-turn plane at `(1, 2)` after the binary32 `Update`: the normal
is `(-1, 0)`, the distance from the origin `-1` and the endpoints `(1, -9998)`
and `(1, 10002)`. -/
theorem examplePlane_UpdateRounded :
    (examplePlane.UpdateRounded roundBinary32).m_normal = ⟨-1, 0⟩ ∧
    (examplePlane.UpdateRounded roundBinary32).m_distanceFromOrigin = -1 ∧
    (examplePlane.UpdateRounded roundBinary32).m_point_1 = ⟨1, -9998⟩ ∧
    (examplePlane.UpdateRounded roundBinary32).m_point_2 = ⟨1, 10002⟩ := by
  have h := Plane2D.UpdateRounded_eq_of_exact roundBinary32 examplePlane
  have hp := h.2.2.2 examplePlane_endpointOperands_exact
  rw [h.1, h.2.2.1 examplePlane_distanceOperands_exact, hp.1, hp.2]
  refine ⟨?_, ?_, ?_, ?_⟩ <;>
    norm_num [Plane2D.Update, examplePlane, Vector2D.RIGHT, Vector2D.DotProduct,
      Vector2D.sub, Vector2D.add, Vector2D.mulScalar, Vector3D.Convert2D]

/-- The quarter-turn plane at `(1, 2)` after the binary32 `Update`: a list of
the operands of `SideOfPlane(x, y)`. -/
theorem examplePlane_sideOperands (x y : ℚ) :
    (examplePlane.UpdateRounded roundBinary32).sideOperands x y =
      [-1 * x, 0 * y, -1 * x + 0 * y, -1 * x + 0 * y - -1] := by
  simp only [Plane2D.sideOperands, examplePlane_UpdateRounded.1, examplePlane_UpdateRounded.2.1]

/-! ## Plane2D in float: reflection through the position -/

/-- C18 (as the code has it): after `Update()` in `float`, for every position
and rotation, the position of the plane has the computed signed distance `0`
and `SideOfPlane` classifies it as `ON_PLANE`. The stored endpoints are
`position − 10000·rightAxis` and `position + 10000·rightAxis`, with the position
as their midpoint, when the six operations that compute them do not round; and
an endpoint has the computed signed distance `0` and is classified `ON_PLANE`
when, besides, neither the three operations of `distanceFromOrigin` nor the four
of `SideOfPlane` at that endpoint round. -/
theorem Plane2D.UpdateRounded_points_on_plane (p : Plane2D) :
    ((p.UpdateRounded roundBinary32).distanceFromPlaneRounded roundBinary32
        (p.UpdateRounded roundBinary32).m_position.Convert2D.X
        (p.UpdateRounded roundBinary32).m_position.Convert2D.Y = 0 ∧
      (p.UpdateRounded roundBinary32).SideOfPlaneRounded roundBinary32
        (p.UpdateRounded roundBinary32).m_position.Convert2D.X
        (p.UpdateRounded roundBinary32).m_position.Convert2D.Y = PlaneSide.ON_PLANE) ∧
    (ExactOn roundBinary32 p.endpointOperands →
      (p.UpdateRounded roundBinary32).m_point_1 =
        p.m_position.Convert2D.sub (p.rotatedRightAxis.mulScalar 10000) ∧
      (p.UpdateRounded roundBinary32).m_point_2 =
        p.m_position.Convert2D.add (p.rotatedRightAxis.mulScalar 10000) ∧
      ((p.UpdateRounded roundBinary32).m_point_1.add
        (p.UpdateRounded roundBinary32).m_point_2).divScalar 2 = p.m_position.Convert2D) ∧
    (ExactOn roundBinary32 p.endpointOperands → ExactOn roundBinary32 p.distanceOperands →
      (ExactOn roundBinary32 ((p.UpdateRounded roundBinary32).sideOperands
          (p.UpdateRounded roundBinary32).m_point_1.X
          (p.UpdateRounded roundBinary32).m_point_1.Y) →
        (p.UpdateRounded roundBinary32).distanceFromPlaneRounded roundBinary32
          (p.UpdateRounded roundBinary32).m_point_1.X
          (p.UpdateRounded roundBinary32).m_point_1.Y = 0 ∧
        (p.UpdateRounded roundBinary32).SideOfPlaneRounded roundBinary32
          (p.UpdateRounded roundBinary32).m_point_1.X
          (p.UpdateRounded roundBinary32).m_point_1.Y = PlaneSide.ON_PLANE) ∧
      (ExactOn roundBinary32 ((p.UpdateRounded roundBinary32).sideOperands
          (p.UpdateRounded roundBinary32).m_point_2.X
          (p.UpdateRounded roundBinary32).m_point_2.Y) →
        (p.UpdateRounded roundBinary32).distanceFromPlaneRounded roundBinary32
          (p.UpdateRounded roundBinary32).m_point_2.X
          (p.UpdateRounded roundBinary32).m_point_2.Y = 0 ∧
        (p.UpdateRounded roundBinary32).SideOfPlaneRounded roundBinary32
          (p.UpdateRounded roundBinary32).m_point_2.X
          (p.UpdateRounded roundBinary32).m_point_2.Y = PlaneSide.ON_PLANE)) := by
  have hU := Plane2D.UpdateRounded_eq_of_exact roundBinary32 p
  have hex := Plane2D.Update_points_on_plane_exact p
  refine ⟨Plane2D.SideOfPlaneRounded_position roundBinary32 roundBinary32_zero p, ?_, ?_⟩
  · intro hE
    have hp := hU.2.2.2 hE
    rw [hp.1, hp.2]
    exact ⟨hex.1.1, hex.1.2, hex.2.2.2⟩
  · intro hE hD
    have hp := hU.2.2.2 hE
    have hdist : ∀ q : Vector2D,
        p.Update.m_normal.DotProduct q - p.Update.m_distanceFromOrigin = 0 →
        ExactOn roundBinary32 ((p.UpdateRounded roundBinary32).sideOperands q.X q.Y) →
        (p.UpdateRounded roundBinary32).distanceFromPlaneRounded roundBinary32 q.X q.Y = 0 ∧
        (p.UpdateRounded roundBinary32).SideOfPlaneRounded roundBinary32 q.X q.Y =
          PlaneSide.ON_PLANE := by
      intro q hq hS
      have h0 : (p.UpdateRounded roundBinary32).distanceFromPlaneRounded roundBinary32
          q.X q.Y = 0 := by
        rw [Plane2D.distanceFromPlaneRounded_eq_of_exact roundBinary32 _ _ _ hS]
        unfold Plane2D.signedDistance
        rw [hU.1, hU.2.2.1 hD]
        exact hq
      exact ⟨h0, (Plane2D.SideOfPlaneRounded_of_distance _ _ _ _).2.2 h0⟩
    rw [hp.1, hp.2]
    exact ⟨hdist _ hex.2.1.2.1, hdist _ hex.2.1.2.2⟩

/-- The quarter-turn plane at `(1, 2)` in binary32: no operation of `Update`
rounds, the endpoints are `(1, -9998)` and `(1, 10002)`, no operation of
`SideOfPlane` at the first endpoint rounds, and it is classified `ON_PLANE`. -/
theorem Plane2D.UpdateRounded_points_on_plane_witness :
    (ExactOn roundBinary32 examplePlane.endpointOperands ∧
      ExactOn roundBinary32 examplePlane.distanceOperands) ∧
    (examplePlane.UpdateRounded roundBinary32).m_point_1 = ⟨1, -9998⟩ ∧
    (examplePlane.UpdateRounded roundBinary32).SideOfPlaneRounded roundBinary32
      (examplePlane.UpdateRounded roundBinary32).m_point_1.X
      (examplePlane.UpdateRounded roundBinary32).m_point_1.Y = PlaneSide.ON_PLANE := by
  have hS : ExactOn roundBinary32 ((examplePlane.UpdateRounded roundBinary32).sideOperands
      (examplePlane.UpdateRounded roundBinary32).m_point_1.X
      (examplePlane.UpdateRounded roundBinary32).m_point_1.Y) := by
    rw [examplePlane_sideOperands, examplePlane_UpdateRounded.2.2.1]
    norm_num
    exact ExactOn.cons roundBinary32_exact_m1 (ExactOn.cons roundBinary32_zero
      (ExactOn.cons roundBinary32_exact_m1 (ExactOn.cons roundBinary32_zero (ExactOn.nil _))))
  exact ⟨⟨examplePlane_endpointOperands_exact, examplePlane_distanceOperands_exact⟩,
    examplePlane_UpdateRounded.2.2.1,
    (((Plane2D.UpdateRounded_points_on_plane examplePlane).2.2
      examplePlane_endpointOperands_exact examplePlane_distanceOperands_exact).1 hS).2⟩

/-- C18 fails in `float`: on the plane at `(1, 2)` with right axis
`(0.6f, 0.8f)`, `Update()` stores the endpoints `(-5999, -7998)` and
`(6001, 8002)`, `SideOfPlane` computes the signed distance `-1639 / 2^24` for
each of them and returns `NEGATIVE_SIDE`, not `ON_PLANE`. -/
theorem Plane2D.UpdateRounded_points_on_plane_counterexample :
    ((roundedPlane.UpdateRounded roundBinary32).m_point_1 = ⟨-5999, -7998⟩ ∧
      (roundedPlane.UpdateRounded roundBinary32).m_point_2 = ⟨6001, 8002⟩) ∧
    (roundedPlane.UpdateRounded roundBinary32).SideOfPlaneRounded roundBinary32
      (roundedPlane.UpdateRounded roundBinary32).m_point_1.X
      (roundedPlane.UpdateRounded roundBinary32).m_point_1.Y = PlaneSide.NEGATIVE_SIDE ∧
    (roundedPlane.UpdateRounded roundBinary32).SideOfPlaneRounded roundBinary32
      (roundedPlane.UpdateRounded roundBinary32).m_point_2.X
      (roundedPlane.UpdateRounded roundBinary32).m_point_2.Y = PlaneSide.NEGATIVE_SIDE := by
  refine ⟨roundedPlane_points, ?_, ?_⟩
  · rw [roundedPlane_points.1]
    apply (Plane2D.SideOfPlaneRounded_of_distance _ _ _ _).2.1
    rw [roundedPlane_distance_point_1]
    norm_num
  · rw [roundedPlane_points.2]
    apply (Plane2D.SideOfPlaneRounded_of_distance _ _ _ _).2.1
    rw [roundedPlane_distance_point_2]
    norm_num

end Handmade
